import Mathlib

/-!
# Verification of the devcon terminal core (drivers/devcon)

This file is a shallow embedding, in Lean 4, of the data model and the
operations of the devcon in-kernel terminal emulator:

* the packed/boxed character representation (`devcon_char`, page.c),
* cells, lines and the line operations (page.c),
* pages, scrolling and the scrollback history (page.c),
* the streaming UTF-8 decoder and encoder (parser.c),
* the DEC/ANSI control-sequence state machine and its command
  resolvers (parser.c).

C machine integers are modelled as `Nat` (with explicit `% 2 ^ w` where
truncation matters); heap pointers are modelled by moving values; fallible
allocation is modelled by an explicit `alloc_ok : Bool` parameter where a
claim depends on the failure path, and by the always-succeeding path
elsewhere.  Definitions follow the C sources function by function and keep
their names.
-/

set_option maxHeartbeats 1000000
set_option maxRecDepth 10000

namespace Devcon

/-! ## Characters (page.c)

A `struct devcon_char` is a 64-bit tagged word: the zero word is the null
character, an odd word packs up to three 21-bit code points, and an even
non-zero word is a pointer to heap storage `struct devcon_character`
holding `n` code points.  The embedding keeps the packed word arithmetic
exactly and models the heap storage by the list of stored code points.
-/

/-- Maximum valid UCS-4 character (`DEVCON_CHAR_UCS4_MAX`). -/
def DEVCON_CHAR_UCS4_MAX : Nat := 0x10ffff

/-- Mask for valid UCS-4 characters, 21 bits (`DEVCON_CHAR_UCS4_MASK`). -/
def DEVCON_CHAR_UCS4_MASK : Nat := 0x1fffff

/-- UCS-4 replacement character (`DEVCON_CHAR_UCS4_REPLACEMENT`). -/
def DEVCON_CHAR_UCS4_REPLACEMENT : Nat := 0xfffd

/-- A `struct devcon_char`: either the raw word (null or packed form, the
C `_value` with the low tag bit set for packed), or the contents of the
heap-allocated `struct devcon_character` (the boxed form; the C stores a
pointer whose low bit is clear, and the storage holds the code points with
a trailing zero). -/
inductive devcon_char where
  | word (value : Nat)
  | alloc (cps : List Nat)
deriving DecidableEq

/-- The null character `DEVCON_CHAR_NULL` (the zero word). -/
def DEVCON_CHAR_NULL : devcon_char := devcon_char.word 0

/-- The packed word built by `devcon_char_pack()`: tag bit 1, and the three
code points masked to 21 bits at bit offsets 43, 22 and 1. -/
def devcon_char_packval (v1 v2 v3 : Nat) : Nat :=
  0x01 |||
    ((v1 &&& DEVCON_CHAR_UCS4_MASK) <<< 43) |||
    ((v2 &&& DEVCON_CHAR_UCS4_MASK) <<< 22) |||
    ((v3 &&& DEVCON_CHAR_UCS4_MASK) <<< 1)

/-- `devcon_char_pack()`: pack 3 UCS-4 values into a `devcon_char`. -/
def devcon_char_pack (v1 v2 v3 : Nat) : devcon_char :=
  devcon_char.word (devcon_char_packval v1 v2 v3)

/-- `devcon_char_pack3()`. -/
def devcon_char_pack3 (v1 v2 v3 : Nat) : devcon_char :=
  devcon_char_pack v1 v2 v3

/-- `devcon_char_pack2()`: the third slot is the absent sentinel
`DEVCON_CHAR_UCS4_MAX + 1`. -/
def devcon_char_pack2 (v1 v2 : Nat) : devcon_char :=
  devcon_char_pack3 v1 v2 (DEVCON_CHAR_UCS4_MAX + 1)

/-- `devcon_char_pack1()`: the second and third slots are absent. -/
def devcon_char_pack1 (v1 : Nat) : devcon_char :=
  devcon_char_pack2 v1 (DEVCON_CHAR_UCS4_MAX + 1)

/-- `devcon_char_unpack()`: extract the three stored 21-bit slots from a
packed word and the number of characters actually packed (a slot above
`DEVCON_CHAR_UCS4_MAX` is the absent sentinel).  Returns
`(n, v1, v2, v3)`. -/
def devcon_char_unpack (packed : Nat) : Nat × Nat × Nat × Nat :=
  let v1 := (packed >>> 43) &&& DEVCON_CHAR_UCS4_MASK
  let v2 := (packed >>> 22) &&& DEVCON_CHAR_UCS4_MASK
  let v3 := (packed >>> 1) &&& DEVCON_CHAR_UCS4_MASK
  let n := if v1 > DEVCON_CHAR_UCS4_MAX then 0
           else if v2 > DEVCON_CHAR_UCS4_MAX then 1
           else if v3 > DEVCON_CHAR_UCS4_MAX then 2
           else 3
  (n, v1, v2, v3)

/-- `devcon_char_is_null()`: true iff the tagged word is zero. -/
def devcon_char_is_null : devcon_char → Bool
  | .word v => v = 0
  | .alloc _ => false

/-- `devcon_char_is_allocated()`: true iff the char is non-null and the
low tag bit is clear, i.e. it is a pointer to heap storage. -/
def devcon_char_is_allocated : devcon_char → Bool
  | .word _ => false
  | .alloc _ => true

/-- `devcon_char_build()`: append `append_ucs4` to `base` and return the
resulting character; `base` itself is returned when the value is invalid,
when the soft combining-char limit (`climit = 64`) is reached, or (in the
C code) when the allocation of the extended storage fails - the embedding
models the successful-allocation path, matching the claims under
scrutiny. -/
def devcon_char_build (base : devcon_char) (append_ucs4 : Nat) : devcon_char :=
  -- soft-limit for combining-chars; hard-limit is currently 255
  let climit : Nat := 64
  -- ignore invalid UCS-4
  if append_ucs4 > DEVCON_CHAR_UCS4_MAX then base
  else if devcon_char_is_null base then devcon_char_pack1 append_ucs4
  else match base with
    | .word w =>
      -- unpack and try extending the packed character
      let u := devcon_char_unpack w
      match u.1 with
      | 0 => devcon_char_pack1 append_ucs4
      | 1 => if climit < 2 then base else devcon_char_pack2 u.2.1 append_ucs4
      | 2 => if climit < 3 then base
             else devcon_char_pack3 u.2.1 u.2.2.1 append_ucs4
      | _ =>
        -- already fully packed, we need to allocate a new one
        let t := [u.2.1, u.2.2.1, u.2.2.2]
        -- bail out if soft-limit is reached
        if t.length ≥ climit then base
        else devcon_char.alloc (t ++ [append_ucs4])
    | .alloc cps =>
      -- already an allocated type, we need to allocate a new one
      if cps.length ≥ climit then base
      else devcon_char.alloc (cps ++ [append_ucs4])

/-- `devcon_char_merge()`: append a UCS-4 char to an existing char.  The C
function frees `base` when `devcon_char_build` returned a fresh value;
freeing has no observable effect on the value model, so merge reduces to
build. -/
def devcon_char_merge (base : devcon_char) (append_ucs4 : Nat) : devcon_char :=
  devcon_char_build base append_ucs4

/-- `devcon_char_set()`: free `previous` and build a fresh char holding
just `append_ucs4`. -/
def devcon_char_set (_previous : devcon_char) (append_ucs4 : Nat) : devcon_char :=
  devcon_char_build DEVCON_CHAR_NULL append_ucs4

/-- `devcon_char_resolve()`: the zero-terminated UCS-4 string for a char
together with its length (the length excludes the zero terminator).  For
the null char the client buffer receives just the terminator; for a packed
char the buffer receives the 1-3 unpacked code points and the terminator;
for an allocated char the heap storage (which carries a trailing zero) is
returned. -/
def devcon_char_resolve (ch : devcon_char) : List Nat × Nat :=
  match ch with
  | .word w =>
    if w = 0 then ([0], 0)
    else
      let u := devcon_char_unpack w
      (([u.2.1, u.2.2.1, u.2.2.2].take u.1) ++ [0], u.1)
  | .alloc cps => (cps ++ [0], cps.length)

/-! ## Attributes, cells and lines (page.c / page.h)

`struct devcon_color` is a tagged union of a 256-color index and an RGB
triple; the embedding flattens the union into separate fields (only one of
which is meaningful at a time, as in C after zero-initialisation).  A
zeroed `devcon_attr` is the default.  Cells live in a line's contiguous
buffer; the buffer is modelled as a `List devcon_cell` and `n_cells` is
its length.
-/

/-- A `struct devcon_color`. -/
structure devcon_color where
  ccode : Nat
  c256 : Nat
  red : Nat
  green : Nat
  blue : Nat
deriving DecidableEq

/-- The zero-initialised color. -/
def devcon_color_null : devcon_color :=
  { ccode := 0, c256 := 0, red := 0, green := 0, blue := 0 }

/-- A `struct devcon_attr`. -/
structure devcon_attr where
  fg : devcon_color
  bg : devcon_color
  bold : Bool
  italic : Bool
  underline : Bool
  inverse : Bool
  protect : Bool
  blink : Bool
  hidden : Bool
deriving DecidableEq

/-- The zero-initialised (default) attributes. -/
def devcon_attr_null : devcon_attr :=
  { fg := devcon_color_null, bg := devcon_color_null,
    bold := false, italic := false, underline := false, inverse := false,
    protect := false, blink := false, hidden := false }

/-- A NULL attribute pointer selects the zeroed default (the C functions
`memset` the cell attributes when `attr` is NULL). -/
def devcon_attr_of (attr : Option devcon_attr) : devcon_attr :=
  attr.getD devcon_attr_null

/-- A `struct devcon_cell`. -/
structure devcon_cell where
  ch : devcon_char
  age : Nat
  attr : devcon_attr
  cwidth : Nat
deriving DecidableEq

/-- `devcon_cell_init()`: initialise a cell from uninitialised storage. -/
def devcon_cell_init (ch : devcon_char) (cwidth : Nat)
    (attr : Option devcon_attr) (age : Nat) : devcon_cell :=
  { ch := ch, cwidth := cwidth, age := age, attr := devcon_attr_of attr }

/-- `devcon_cell_set()`: change the contents of an initialised cell.  The
C function releases the old char unless the new tagged word is the same;
on the value model the result does not depend on the old cell. -/
def devcon_cell_set (_cell : devcon_cell) (ch : devcon_char) (cwidth : Nat)
    (attr : Option devcon_attr) (age : Nat) : devcon_cell :=
  { ch := ch, cwidth := cwidth, age := age, attr := devcon_attr_of attr }

/-- `devcon_cell_append()`: append a combining char to a cell and update
its age. -/
def devcon_cell_append (cell : devcon_cell) (ucs4 : Nat) (age : Nat) : devcon_cell :=
  { cell with ch := devcon_char_merge cell.ch ucs4, age := age }

/-- The zero-initialised cell (equal to
`devcon_cell_init DEVCON_CHAR_NULL 0 none 0`). -/
def devcon_cell_null : devcon_cell :=
  { ch := DEVCON_CHAR_NULL, cwidth := 0, age := 0, attr := devcon_attr_null }

/-- Write the cell value `c` into `cells[start .. start+n)` (within the
buffer).  This is the common shape of the bulk loops `devcon_cell_init_n`,
`devcon_cell_clear_n` and the `memset` path; all of them store the same
cell value `devcon_cell_init DEVCON_CHAR_NULL 0 attr age` at every
position of the range. -/
def cells_fill_range (cells : List devcon_cell) (start n : Nat)
    (c : devcon_cell) : List devcon_cell :=
  cells.take start ++ List.replicate (min n (cells.length - start)) c ++
    cells.drop (start + n)

/-- A `struct devcon_line`.  The intrusive `list` linkage is represented
by membership of the line value in a history's list; `n_cells` is
`cells.length`. -/
structure devcon_line where
  width : Nat
  cells : List devcon_cell
  age : Nat
  fill : Nat
deriving DecidableEq

/-- The `n_cells` field: number of allocated cells. -/
def devcon_line.n_cells (line : devcon_line) : Nat :=
  line.cells.length

/-- A line fresh from `devcon_line_new()` (kzalloc): everything zero. -/
def devcon_line_null : devcon_line :=
  { width := 0, cells := [], age := 0, fill := 0 }

/-- `devcon_line_reserve()`: pre-allocate cells so the line has at least
`width` cells.  Existing cells in `[protect_width, min n_cells width)` are
cleared with `attr`/`age`; new cells are initialised likewise (the
`memset` fast path for NULL attr and zero age produces the same cell
value); `fill` is clamped to `protect_width`.  `alloc_ok = false` models a
failing `krealloc`: the function then returns `-ENOMEM` after the clearing
but before growing or clamping the fill.  Returns the new line and the
success flag. -/
def devcon_line_reserve (line : devcon_line) (width : Nat)
    (attr : Option devcon_attr) (age : Nat) (protect_width : Nat)
    (alloc_ok : Bool) : devcon_line × Bool :=
  -- reset existing cells if required
  let min_width := min line.cells.length width
  let cells1 := if min_width > protect_width then
      cells_fill_range line.cells protect_width (min_width - protect_width)
        (devcon_cell_init DEVCON_CHAR_NULL 0 attr age)
    else line.cells
  -- allocate new cells if required
  if width > line.cells.length then
    if alloc_ok then
      let cells2 := cells1 ++
        List.replicate (width - line.cells.length)
          (devcon_cell_init DEVCON_CHAR_NULL 0 attr age)
      ({ line with cells := cells2, fill := min line.fill protect_width }, true)
    else
      ({ line with cells := cells1 }, false)
  else
    ({ line with cells := cells1, fill := min line.fill protect_width }, true)

/-- `devcon_line_set_width()`: change the visible width, cropped to the
allocated cell count; `fill` is cropped at the new width. -/
def devcon_line_set_width (line : devcon_line) (width : Nat) : devcon_line :=
  let width := min width line.cells.length
  { line with width := width, fill := min line.fill width }

/-- `devcon_line_place()`: insert `num` cells at `from_`, shifting
existing cells right; cells shifted beyond the width are destroyed.  The
head cell receives `head_char`, the other inserted cells are cleared.  In
the shifting case `fill` becomes `min width (max (fill + num) (from_ +
num))`, otherwise `width`. -/
def devcon_line_place (line : devcon_line) (from_ num0 : Nat)
    (head_char : devcon_char) (head_cwidth : Nat)
    (attr : Option devcon_attr) (age : Nat) : devcon_line :=
  if from_ ≥ line.width then line
  else
    -- (the C overflow test `from + num < from` cannot fire on Nat)
    let num := if from_ + num0 > line.width then line.width - from_ else num0
    if num = 0 then line
    else
      let move := line.width - from_ - num
      let rem := min num move
      let head := devcon_cell_init head_char head_cwidth attr age
      let tails := List.replicate (num - 1) (devcon_cell_init DEVCON_CHAR_NULL 0 attr age)
      if rem > 0 then
        -- destroy the cells knocked off on the right, move the remaining
        -- bulk right by num, invalidate the moved cells, and initialise
        -- the fresh head- and tail-cells
        let moved := ((line.cells.drop from_).take move).map
          (fun c => { c with age := age })
        let cells2 := line.cells.take from_ ++ head :: tails ++ moved ++
          line.cells.drop line.width
        { line with cells := cells2,
                    fill := min line.width (max (line.fill + num) (from_ + num)) }
      else
        -- nothing to shift: modify the head-cell and reset the tail-cells
        let cells2 := line.cells.take from_ ++ head :: tails ++
          line.cells.drop (from_ + num)
        { line with cells := cells2, fill := line.width }

/-- `devcon_line_write()`: write one character at `pos_x`, occupying
`max 1 cwidth` cells (truncated at the right edge).  In insert mode this
is a `devcon_line_place`; otherwise the head cell is set, the tail cells
are cleared, and `fill` grows to cover the write. -/
def devcon_line_write (line : devcon_line) (pos_x : Nat) (ch : devcon_char)
    (cwidth : Nat) (attr : Option devcon_attr) (age : Nat)
    (insert_mode : Bool) : devcon_line :=
  if pos_x ≥ line.width then line
  else
    let len0 := max 1 cwidth
    let len := if pos_x + len0 > line.width then line.width - pos_x else len0
    if len = 0 then line
    else if insert_mode then
      devcon_line_place line pos_x len ch cwidth attr age
    else
      let head := devcon_cell_set devcon_cell_null ch cwidth attr age
      let cells2 := cells_fill_range (line.cells.set pos_x head)
        (pos_x + 1) (len - 1) (devcon_cell_init DEVCON_CHAR_NULL 0 attr age)
      { line with cells := cells2,
                  fill := min line.width (max line.fill (pos_x + len)) }

/-- `devcon_line_insert()`: insert `num` empty cells at `from_`. -/
def devcon_line_insert (line : devcon_line) (from_ num : Nat)
    (attr : Option devcon_attr) (age : Nat) : devcon_line :=
  devcon_line_place line from_ num DEVCON_CHAR_NULL 0 attr age

/-- `devcon_line_delete()`: delete `num` cells at `from_`, shifting the
survivors left and clearing the freed tail.  When there is nothing to
move the targeted cells are simply cleared.  (The C splits the freed range
into a `devcon_cell_init_n` tail and, when `num > move`, an additional
`devcon_cell_clear_n`; both store the same cell value, so the embedding
writes the fused range `[from_ + move, width)`.) -/
def devcon_line_delete (line : devcon_line) (from_ num0 : Nat)
    (attr : Option devcon_attr) (age : Nat) : devcon_line :=
  if from_ ≥ line.width then line
  else
    let num := if from_ + num0 > line.width then line.width - from_ else num0
    if num = 0 then line
    else
      let move := line.width - from_ - num
      let rem := min num move
      let cells2 := if rem > 0 then
          -- move the tail upfront, invalidate it, and re-initialise the
          -- freed cells on the right
          let moved := ((line.cells.drop (from_ + num)).take move).map
            (fun c => { c with age := age })
          line.cells.take from_ ++ moved ++
            List.replicate num (devcon_cell_init DEVCON_CHAR_NULL 0 attr age) ++
            line.cells.drop line.width
        else
          -- reset cells
          cells_fill_range line.cells from_ num
            (devcon_cell_init DEVCON_CHAR_NULL 0 attr age)
      -- adjust fill-state
      let fill2 := if from_ + num < line.fill then line.fill - num
                   else if from_ < line.fill then from_
                   else line.fill
      { line with cells := cells2, fill := fill2 }

/-- `devcon_line_append()`: append a combining char to the cell at
`pos_x`; skipped outside the visible area. -/
def devcon_line_append (line : devcon_line) (pos_x ucs4 age : Nat) : devcon_line :=
  if pos_x ≥ line.width then line
  else
    let cell2 := devcon_cell_append (line.cells.getD pos_x devcon_cell_null) ucs4 age
    { line with cells := line.cells.set pos_x cell2 }

/-- `devcon_line_erase()`: clear the cells in `[from_, from_ + num)`
without shifting, skipping protected cells when `keep_protected`; the
fill-state is adjusted only when the erased range starts inside and ends
at or beyond the fill-region, and accounts for the last protected cell
inside the old fill-region.  `devcon_line_erase_step` is the body of the
erase loop, carrying the cell buffer and `last_protected`. -/
def devcon_line_erase_step (from_ fill : Nat) (attr : Option devcon_attr)
    (age : Nat) (keep_protected : Bool)
    (acc : List devcon_cell × Nat) (i : Nat) : List devcon_cell × Nat :=
  let cell := acc.1.getD (from_ + i) devcon_cell_null
  if keep_protected && cell.attr.protect then
    -- only count protected-cells inside the fill-region
    if from_ + i < fill then (acc.1, from_ + i) else acc
  else
    (acc.1.set (from_ + i) (devcon_cell_set cell DEVCON_CHAR_NULL 0 attr age),
     acc.2)

def devcon_line_erase (line : devcon_line) (from_ num0 : Nat)
    (attr : Option devcon_attr) (age : Nat) (keep_protected : Bool) : devcon_line :=
  if from_ ≥ line.width then line
  else
    let num := if from_ + num0 > line.width then line.width - from_ else num0
    if num = 0 then line
    else
      let r := (List.range num).foldl
        (devcon_line_erase_step from_ line.fill attr age keep_protected)
        (line.cells, 0)
      let fill2 := if from_ < line.fill ∧ from_ + num ≥ line.fill
                   then max from_ r.2 else line.fill
      { line with cells := r.1, fill := fill2 }

/-- `devcon_line_reset()`: erase the whole visible line. -/
def devcon_line_reset (line : devcon_line) (attr : Option devcon_attr)
    (age : Nat) : devcon_line :=
  devcon_line_erase line 0 line.width attr age false

/-- One public mutating line operation, for stating invariants over
arbitrary operation sequences.  `reserve` carries the allocation oracle so
both the success and the failure path are covered. -/
inductive devcon_line_op where
  | reserve (width : Nat) (attr : Option devcon_attr) (age : Nat)
      (protect_width : Nat) (alloc_ok : Bool)
  | set_width (width : Nat)
  | write (pos_x : Nat) (ch : devcon_char) (cwidth : Nat)
      (attr : Option devcon_attr) (age : Nat) (insert_mode : Bool)
  | place (from_ num : Nat) (head_char : devcon_char) (head_cwidth : Nat)
      (attr : Option devcon_attr) (age : Nat)
  | insert (from_ num : Nat) (attr : Option devcon_attr) (age : Nat)
  | delete (from_ num : Nat) (attr : Option devcon_attr) (age : Nat)
  | erase (from_ num : Nat) (attr : Option devcon_attr) (age : Nat)
      (keep_protected : Bool)
  | reset (attr : Option devcon_attr) (age : Nat)
  | append (pos_x ucs4 age : Nat)

/-- Apply one line operation. -/
def devcon_line_apply (line : devcon_line) : devcon_line_op → devcon_line
  | .reserve w a g pw ok => (devcon_line_reserve line w a g pw ok).1
  | .set_width w => devcon_line_set_width line w
  | .write x ch cw a g ins => devcon_line_write line x ch cw a g ins
  | .place f n hc hw a g => devcon_line_place line f n hc hw a g
  | .insert f n a g => devcon_line_insert line f n a g
  | .delete f n a g => devcon_line_delete line f n a g
  | .erase f n a g kp => devcon_line_erase line f n a g kp
  | .reset a g => devcon_line_reset line a g
  | .append x u g => devcon_line_append line x u g

/-- The line bounds invariant: `0 ≤ fill ≤ width ≤ n_cells` (the lower
bound is inherent to `Nat`). -/
def devcon_line_inv (line : devcon_line) : Prop :=
  line.fill ≤ line.width ∧ line.width ≤ line.cells.length

/-! ## History and page scrolling (page.c)

A history is a bounded queue of detached lines: pushed at the tail,
popped from the tail, trimmed from the head.  The intrusive list is
modelled by a `List devcon_line` whose head is the oldest entry; moving a
line between a page and a history is a value move.  A page stores its
lines as a list of line values (`lines[]` in C is an array of owned
pointers); `n_lines` is the list length.
-/

/-- A `struct devcon_history`. -/
structure devcon_history where
  lines : List devcon_line
  n_lines : Nat
  max_lines : Nat
deriving DecidableEq

/-- `devcon_history_push()`: link the line at the tail; if the history is
at capacity, free the oldest (head) line instead of growing the count. -/
def devcon_history_push (history : devcon_history) (line : devcon_line) :
    devcon_history :=
  let ls := history.lines ++ [line]
  if history.n_lines ≥ history.max_lines then
    { history with lines := ls.drop 1 }
  else
    { history with lines := ls, n_lines := history.n_lines + 1 }

/-- `devcon_history_pop()`: reserve the most recently pushed line to
`new_width` (protecting its current width) and unlink it; when the
reservation fails the line is kept linked at the tail (with its cells
beyond the old width possibly cleared by the partial reserve) and `none`
is returned.  Returns the popped line (or `none`) and the new history. -/
def devcon_history_pop (history : devcon_history) (new_width : Nat)
    (attr : Option devcon_attr) (age : Nat) (alloc_ok : Bool) :
    Option devcon_line × devcon_history :=
  match history.lines.getLast? with
  | none => (none, history)
  | some line =>
    let r := devcon_line_reserve line new_width attr age line.width alloc_ok
    if r.2 then
      (some (devcon_line_set_width r.1 new_width),
       { history with lines := history.lines.dropLast,
                      n_lines := history.n_lines - 1 })
    else
      (none, { history with lines := history.lines.dropLast ++ [r.1] })

/-- A `struct devcon_page` (the `line_cache` scratch array is implicit in
the embedding). -/
structure devcon_page where
  age : Nat
  lines : List devcon_line
  width : Nat
  height : Nat
  scroll_idx : Nat
  scroll_num : Nat
  scroll_fill : Nat
deriving DecidableEq

/-- `devcon_page_up()`: scroll the scroll-region up by `num` lines.  With
a history, each of the top `num` region lines is pushed into the history
and replaced by a freshly allocated line reserved to the width; without a
history the old line is reset in place and reused.  The remaining region
lines move up (their age is stamped) and the replacement lines fill the
bottom; `scroll_fill` shrinks by `num`.  The embedding takes the
allocation-success path (a failed allocation in C degrades to the
reset-and-reuse case). -/
def devcon_page_up (page : devcon_page) (new_width0 num0 : Nat)
    (attr : Option devcon_attr) (age : Nat)
    (history : Option devcon_history) : devcon_page × Option devcon_history :=
  let num := min num0 page.scroll_num
  if num < 1 then (page, history)
  else
    -- avoid under-allocating lines, even when resizing
    let new_width := max new_width0 page.width
    let old := (page.lines.drop page.scroll_idx).take num
    let (cache, history2) :=
      match history with
      | some h =>
        let fresh := devcon_line_set_width
          (devcon_line_reserve devcon_line_null new_width attr age 0 true).1
          page.width
        (List.replicate num fresh, some (old.foldl devcon_history_push h))
      | none =>
        (old.map (fun l => devcon_line_reset l attr age), none)
    let moved := ((page.lines.drop (page.scroll_idx + num)).take
        (page.scroll_num - num)).map (fun l : devcon_line => { l with age := age })
    let lines2 := page.lines.take page.scroll_idx ++ moved ++ cache ++
      page.lines.drop (page.scroll_idx + page.scroll_num)
    ({ page with lines := lines2,
                 scroll_fill := page.scroll_fill - min page.scroll_fill num },
     history2)

/-- The pull loop of `devcon_page_down()`: walk the bottom `num` region
lines from the bottom up; for each, pop a line from the history (always
reservable in the success model) or, with no history or an empty history,
reset and reuse the existing line.  The C stores the i-th result at
`cache[num - 1 - i]`; the returned list is the cache in index order. -/
def devcon_page_down_loop (new_width : Nat) (attr : Option devcon_attr)
    (age : Nat) :
    List devcon_line → Option devcon_history →
      List devcon_line × Option devcon_history
  | [], history => ([], history)
  | line :: rest, history =>
    let (t, history1) :=
      match history with
      | some h =>
        let r := devcon_history_pop h new_width attr age true
        (r.1, some r.2)
      | none => (none, none)
    let elem := match t with
      | some tl => tl
      | none => devcon_line_reset line attr age
    let (cache, history2) := devcon_page_down_loop new_width attr age rest history1
    (cache ++ [elem], history2)

/-- `devcon_page_down()`: scroll the scroll-region down by `num` lines;
new top lines come from the history (or are the reused bottom lines,
reset); the surviving region lines move down with their age stamped;
`scroll_fill` grows by `num` (clamped) only when already non-zero. -/
def devcon_page_down (page : devcon_page) (new_width0 num0 : Nat)
    (attr : Option devcon_attr) (age : Nat)
    (history : Option devcon_history) : devcon_page × Option devcon_history :=
  let num := min num0 page.scroll_num
  if num < 1 then (page, history)
  else
    -- avoid under-allocating lines, even when resizing
    let new_width := max new_width0 page.width
    let bottom := ((page.lines.drop (page.scroll_idx + page.scroll_num - num)).take
        num).reverse
    let (cache, history2) := devcon_page_down_loop new_width attr age bottom history
    let moved := ((page.lines.drop page.scroll_idx).take
        (page.scroll_num - num)).map (fun l : devcon_line => { l with age := age })
    let lines2 := page.lines.take page.scroll_idx ++ cache ++ moved ++
      page.lines.drop (page.scroll_idx + page.scroll_num)
    ({ page with lines := lines2,
                 scroll_fill := if page.scroll_fill > 0
                   then min page.scroll_num (page.scroll_fill + num)
                   else page.scroll_fill },
     history2)

/-- `devcon_page_scroll_up()`. -/
def devcon_page_scroll_up (page : devcon_page) (num : Nat)
    (attr : Option devcon_attr) (age : Nat)
    (history : Option devcon_history) : devcon_page × Option devcon_history :=
  devcon_page_up page page.width num attr age history

/-- `devcon_page_scroll_down()`. -/
def devcon_page_scroll_down (page : devcon_page) (num : Nat)
    (attr : Option devcon_attr) (age : Nat)
    (history : Option devcon_history) : devcon_page × Option devcon_history :=
  devcon_page_down page page.width num attr age history

/-- The history-independent view of a line: its cells, width and fill
(everything except the renderer age stamp). -/
def devcon_line_view (line : devcon_line) : List devcon_cell × Nat × Nat :=
  (line.cells, line.width, line.fill)

/-! ## Streaming UTF-8 decoder and encoder (parser.c)

The decoder is byte-at-a-time with per-stream state; on malformed input
it falls back to emitting the buffered bytes as ISO-8859-1.  `chars` is
the C 5-entry buffer (kept at length 5 by positional updates); `i_bytes`
and `n_bytes` are 3-bit fields in C but never exceed 4, so plain `Nat`
is faithful.
-/

/-- A `struct devcon_utf8`. -/
structure devcon_utf8 where
  chars : List Nat
  ucs4 : Nat
  i_bytes : Nat
  n_bytes : Nat
  valid : Bool
deriving DecidableEq

/-- The all-zero initial decoder state. -/
def devcon_utf8_null : devcon_utf8 :=
  { chars := [0, 0, 0, 0, 0], ucs4 := 0, i_bytes := 0, n_bytes := 0,
    valid := false }

/-- The common tail of `devcon_utf8_decode()`: when a full (valid or
invalid) sequence has been parsed, return it and reset the state;
otherwise return nothing. -/
def devcon_utf8_finish (p : devcon_utf8) : devcon_utf8 × List Nat :=
  if p.valid then
    if p.i_bytes < p.n_bytes then (p, [])
    else ({ p with valid := false, i_bytes := 0, n_bytes := 0 }, [p.ucs4])
  else
    ({ p with valid := false, i_bytes := 0, n_bytes := 0 },
     p.chars.take p.i_bytes)

/-- The `chars` buffer after the abort-and-restart `memmove`: the old
first `i` bytes move to positions `1 .. i`, the new byte lands at
position 0, the remaining positions keep their (dead) contents. -/
def devcon_utf8_shift_chars (chars : List Nat) (i byte : Nat) : List Nat :=
  (List.range chars.length).map fun j =>
    if j = 0 then byte
    else if j ≤ i then chars.getD (j - 1) 0
    else chars.getD j 0

/-- `devcon_utf8_decode()`: push one byte into the decoder, returning the
new state and the possibly-empty list of decoded UCS-4 characters. -/
def devcon_utf8_decode (p : devcon_utf8) (c : Nat) : devcon_utf8 × List Nat :=
  let byte := c % 256
  if !p.valid || p.i_bytes ≥ p.n_bytes then
    -- start parsing a fresh new sequence
    let p1 :=
      if byte &&& 0xE0 = 0xC0 then
        -- start of two byte sequence
        { p with n_bytes := 2, i_bytes := 1, valid := true,
                 chars := p.chars.set 0 byte,
                 ucs4 := (byte &&& 0x1F) <<< (6 * 1) }
      else if byte &&& 0xF0 = 0xE0 then
        -- start of three byte sequence
        { p with n_bytes := 3, i_bytes := 1, valid := true,
                 chars := p.chars.set 0 byte,
                 ucs4 := (byte &&& 0x0F) <<< (6 * 2) }
      else if byte &&& 0xF8 = 0xF0 then
        -- start of four byte sequence
        { p with n_bytes := 4, i_bytes := 1, valid := true,
                 chars := p.chars.set 0 byte,
                 ucs4 := (byte &&& 0x07) <<< (6 * 3) }
      else
        -- single ASCII char, out-of-sync continuation or overlong
        -- encoding: treated as single byte ISO-8859-1
        { p with n_bytes := 1, i_bytes := 1, valid := false,
                 chars := p.chars.set 0 byte,
                 ucs4 := byte <<< (6 * 0) }
    devcon_utf8_finish p1
  else if byte &&& 0xC0 = 0x80 then
    -- valid continuation byte: append and update the ucs4 cache
    let i2 := p.i_bytes + 1
    let p1 := { p with chars := p.chars.set p.i_bytes byte, i_bytes := i2,
                       ucs4 := p.ucs4 ||| ((byte &&& 0x3F) <<< (6 * (p.n_bytes - i2))) }
    devcon_utf8_finish p1
  else if byte &&& 0xE0 = 0xC0 ∨ byte &&& 0xF0 = 0xE0 ∨ byte &&& 0xF8 = 0xF0 then
    -- invalid continuation and a new multi-byte lead: flush the cached
    -- sequence as ISO-8859-1 and start the new sequence in the same run
    let emitted := p.chars.take p.i_bytes
    let chars2 := devcon_utf8_shift_chars p.chars p.i_bytes byte
    if byte &&& 0xE0 = 0xC0 then
      ({ p with chars := chars2, n_bytes := 2, i_bytes := 1, valid := true,
                ucs4 := (byte &&& 0x1F) <<< (6 * 1) }, emitted)
    else if byte &&& 0xF0 = 0xE0 then
      ({ p with chars := chars2, n_bytes := 3, i_bytes := 1, valid := true,
                ucs4 := (byte &&& 0x0F) <<< (6 * 2) }, emitted)
    else
      ({ p with chars := chars2, n_bytes := 4, i_bytes := 1, valid := true,
                ucs4 := (byte &&& 0x07) <<< (6 * 3) }, emitted)
  else
    -- invalid continuation and a single-byte sequence: append it and
    -- return the combined sequence as ISO-8859-1
    let p1 := { p with chars := p.chars.set p.i_bytes byte,
                       i_bytes := p.i_bytes + 1, valid := false }
    devcon_utf8_finish p1

/-- `devcon_utf8_encode()`: standard UTF-8 encoding of `g < 2 ^ 21`,
returned as the list of bytes (empty for larger values, matching the
length-0 return). -/
def devcon_utf8_encode (g : Nat) : List Nat :=
  if g < 1 <<< 7 then
    [g &&& 0x7f]
  else if g < 1 <<< 11 then
    [0xc0 ||| ((g >>> 6) &&& 0x1f),
     0x80 ||| (g &&& 0x3f)]
  else if g < 1 <<< 16 then
    [0xe0 ||| ((g >>> 12) &&& 0x0f),
     0x80 ||| ((g >>> 6) &&& 0x3f),
     0x80 ||| (g &&& 0x3f)]
  else if g < 1 <<< 21 then
    [0xf0 ||| ((g >>> 18) &&& 0x07),
     0x80 ||| ((g >>> 12) &&& 0x3f),
     0x80 ||| ((g >>> 6) &&& 0x3f),
     0x80 ||| (g &&& 0x3f)]
  else
    []

/-- Feed a list of bytes through the decoder, collecting the emitted
UCS-4 characters of each call. -/
def devcon_utf8_decode_list (p : devcon_utf8) :
    List Nat → devcon_utf8 × List (List Nat)
  | [] => (p, [])
  | b :: rest =>
    let r := devcon_utf8_decode p b
    let r2 := devcon_utf8_decode_list r.1 rest
    (r2.1, r.2 :: r2.2)

/-! ## Control-sequence parser: sequences and command resolvers (parser.c)

The parser classifies a UCS-4 stream into sequences; once a sequence is
assembled, pure command resolvers map `(terminator, intermediates, args)`
to a command id.  Sequence types and charset ids keep their C enum
values as `Nat`; commands become an inductive type with the C names.
-/

/-- `DEVCON_PARSER_ARG_MAX`. -/
def DEVCON_PARSER_ARG_MAX : Nat := 16

/-- Sequence types (enum `DEVCON_SEQ_*`, in declaration order). -/
def DEVCON_SEQ_NONE : Nat := 0

def DEVCON_SEQ_IGNORE : Nat := 1

def DEVCON_SEQ_GRAPHIC : Nat := 2

def DEVCON_SEQ_CONTROL : Nat := 3

def DEVCON_SEQ_ESCAPE : Nat := 4

def DEVCON_SEQ_CSI : Nat := 5

def DEVCON_SEQ_DCS : Nat := 6

def DEVCON_SEQ_OSC : Nat := 7

/-- Intermediate flags (enum `DEVCON_SEQ_FLAG_*`): bit `ch - 0x20` for
intermediate character `ch`. -/
def DEVCON_SEQ_FLAG_SPACE : Nat := 1 <<< 0

def DEVCON_SEQ_FLAG_BANG : Nat := 1 <<< 1

def DEVCON_SEQ_FLAG_DQUOTE : Nat := 1 <<< 2

def DEVCON_SEQ_FLAG_HASH : Nat := 1 <<< 3

def DEVCON_SEQ_FLAG_CASH : Nat := 1 <<< 4

def DEVCON_SEQ_FLAG_PERCENT : Nat := 1 <<< 5

def DEVCON_SEQ_FLAG_AND : Nat := 1 <<< 6

def DEVCON_SEQ_FLAG_SQUOTE : Nat := 1 <<< 7

def DEVCON_SEQ_FLAG_POPEN : Nat := 1 <<< 8

def DEVCON_SEQ_FLAG_PCLOSE : Nat := 1 <<< 9

def DEVCON_SEQ_FLAG_MULT : Nat := 1 <<< 10

def DEVCON_SEQ_FLAG_PLUS : Nat := 1 <<< 11

def DEVCON_SEQ_FLAG_COMMA : Nat := 1 <<< 12

def DEVCON_SEQ_FLAG_MINUS : Nat := 1 <<< 13

def DEVCON_SEQ_FLAG_DOT : Nat := 1 <<< 14

def DEVCON_SEQ_FLAG_SLASH : Nat := 1 <<< 15

def DEVCON_SEQ_FLAG_LT : Nat := 1 <<< 28

def DEVCON_SEQ_FLAG_EQUAL : Nat := 1 <<< 29

def DEVCON_SEQ_FLAG_GT : Nat := 1 <<< 30

def DEVCON_SEQ_FLAG_WHAT : Nat := 1 <<< 31

/-- Charset ids (enum `DEVCON_CHARSET_*`); only the boundary values are
named, the table below carries the individual ids as numerals with the C
name in a comment. -/
def DEVCON_CHARSET_NONE : Nat := 0

def DEVCON_CHARSET_96_N : Nat := 7

def DEVCON_CHARSET_94_N : Nat := 30

def DEVCON_CHARSET_N : Nat := 31

/-- Command identifiers (enum `DEVCON_CMD_*`). -/
inductive devcon_cmd where
  | NONE | GRAPHIC
  | BEL | BS | CBT | CHA | CHT | CNL | CPL | CR | CUB | CUD | CUF | CUP | CUU
  | DA1 | DA2 | DA3 | DC1 | DC3 | DCH
  | DECALN | DECANM | DECBI | DECCARA | DECCRA | DECDC | DECDHL_BH | DECDHL_TH
  | DECDWL | DECEFR | DECELF | DECELR | DECERA | DECFI | DECFRA | DECIC
  | DECID | DECINVM | DECKBD | DECKPAM | DECKPNM | DECLFKC | DECLL | DECLTOD
  | DECPCTERM | DECPKA | DECPKFMR | DECRARA | DECRC | DECREQTPARM | DECRPKT
  | DECRQCRA | DECRQDE | DECRQKT | DECRQLP | DECRQM_ANSI | DECRQM_DEC
  | DECRQPKFM | DECRQPSR | DECRQTSR | DECRQUPSS | DECSACE | DECSASD | DECSC
  | DECSCA | DECSCL | DECSCP | DECSCPP | DECSCS | DECSCUSR | DECSDDT
  | DECSDPT | DECSED | DECSEL | DECSERA | DECSFC | DECSKCV | DECSLCK
  | DECSLE | DECSLPP | DECSLRM_OR_SC | DECSMBV | DECSMKR | DECSNLS | DECSPP
  | DECSPPCS | DECSPRTT | DECSR | DECSRFR | DECSSCLS | DECSSDT | DECSSL
  | DECST8C | DECSTBM | DECSTR | DECSTRL | DECSWBV | DECSWL | DECTID
  | DECTME | DECTST | DL | DSR_ANSI | DSR_DEC | ECH | ED | EL | ENQ | EPA
  | FF | HPA | HPR | HT | HTS | HVP | ICH | IL | IND | LF | LS1R | LS2
  | LS2R | LS3 | LS3R | MC_ANSI | MC_DEC | NEL | NP | NULL | PP | PPA
  | PPB | PPR | RC | REP | RI | RIS | RM_ANSI | RM_DEC | S7C1T | S8C1T
  | SCS | SD | SGR | SI | SM_ANSI | SM_DEC | SO | SPA | SS2 | SS3 | ST
  | SU | SUB | TBC | VPA | VPR | VT
  | XTERM_CLLHP | XTERM_IHMT | XTERM_MLHP | XTERM_MUHP | XTERM_RPM
  | XTERM_RRV | XTERM_RTM | XTERM_SACL1 | XTERM_SACL2 | XTERM_SACL3
  | XTERM_SDCS | XTERM_SGFX | XTERM_SPM | XTERM_SRV | XTERM_STM
  | XTERM_SUCS | XTERM_WM
deriving DecidableEq

/-- A `struct devcon_seq`.  The `st` payload buffer is omitted: the DCS
and OSC collect actions are unimplemented stubs in the source, so no code
path ever writes into it; its length counter `n_st` is kept. -/
structure devcon_seq where
  type : Nat
  command : devcon_cmd
  terminator : Nat
  intermediates : Nat
  charset : Nat
  n_args : Nat
  args : List Int
  n_st : Nat
deriving DecidableEq

/-- `devcon_parse_host_control()`: resolve a C0/C1 control character. -/
def devcon_parse_host_control (seq : devcon_seq) : devcon_cmd :=
  if seq.terminator = 0x00 then .NULL
  else if seq.terminator = 0x05 then .ENQ
  else if seq.terminator = 0x07 then .BEL
  else if seq.terminator = 0x08 then .BS
  else if seq.terminator = 0x09 then .HT
  else if seq.terminator = 0x0a then .LF
  else if seq.terminator = 0x0b then .VT
  else if seq.terminator = 0x0c then .FF
  else if seq.terminator = 0x0d then .CR
  else if seq.terminator = 0x0e then .SO
  else if seq.terminator = 0x0f then .SI
  else if seq.terminator = 0x11 then .DC1
  else if seq.terminator = 0x13 then .DC3
  -- CAN, ESC, DEL, DCS, SOS, CSI, OSC, PM, APC are handled by the
  -- state-machine and fall through to NONE here
  else if seq.terminator = 0x1a then .SUB
  else if seq.terminator = 0x84 then .IND
  else if seq.terminator = 0x85 then .NEL
  else if seq.terminator = 0x88 then .HTS
  else if seq.terminator = 0x8d then .RI
  else if seq.terminator = 0x8e then .SS2
  else if seq.terminator = 0x8f then .SS3
  else if seq.terminator = 0x96 then .SPA
  else if seq.terminator = 0x97 then .EPA
  else if seq.terminator = 0x9a then .DECID
  else if seq.terminator = 0x9c then .ST
  else .NONE

/-- The `charset_cmds[]` table of `devcon_charset_from_cmd()`: for a
charset id (secondary choices at `id + 31`, tertiary at `id + 62`) the
designating `(raw, flags)` pair; unset entries are zero. -/
def charset_cmds (i : Nat) : Nat × Nat :=
  -- 96-compat charsets
  if i = 1 then (0x41, 0)                            -- ISO_LATIN1_SUPPLEMENTAL: 'A'
  else if i = 2 then (0x42, 0)                       -- ISO_LATIN2_SUPPLEMENTAL: 'B'
  else if i = 3 then (0x4d, 0)                       -- ISO_LATIN5_SUPPLEMENTAL: 'M'
  else if i = 4 then (0x46, 0)                       -- ISO_GREEK_SUPPLEMENTAL: 'F'
  else if i = 5 then (0x48, 0)                       -- ISO_HEBREW_SUPPLEMENTAL: 'H'
  else if i = 6 then (0x4c, 0)                       -- ISO_LATIN_CYRILLIC: 'L'
  -- 94-compat charsets
  else if i = 7 then (0x30, 0)                       -- DEC_SPECIAL_GRAPHIC: '0'
  else if i = 8 then (0x35, DEVCON_SEQ_FLAG_PERCENT) -- DEC_SUPPLEMENTAL: '5'
  else if i = 9 then (0x3e, 0)                       -- DEC_TECHNICAL: '>'
  else if i = 10 then (0x34, DEVCON_SEQ_FLAG_AND)    -- CYRILLIC_DEC: '4'
  else if i = 11 then (0x34, 0)                      -- DUTCH_NRCS: '4'
  else if i = 12 then (0x35, 0)                      -- FINNISH_NRCS: '5'
  else if i = 13 then (0x52, 0)                      -- FRENCH_NRCS: 'R'
  else if i = 14 then (0x39, 0)                      -- FRENCH_CANADIAN_NRCS: '9'
  else if i = 15 then (0x4b, 0)                      -- GERMAN_NRCS: 'K'
  else if i = 16 then (0x3f, DEVCON_SEQ_FLAG_DQUOTE) -- GREEK_DEC: '?'
  else if i = 17 then (0x3e, DEVCON_SEQ_FLAG_DQUOTE) -- GREEK_NRCS: '>'
  else if i = 18 then (0x34, DEVCON_SEQ_FLAG_DQUOTE) -- HEBREW_DEC: '4'
  else if i = 19 then (0x3d, DEVCON_SEQ_FLAG_PERCENT) -- HEBREW_NRCS: '='
  else if i = 20 then (0x59, 0)                      -- ITALIAN_NRCS: 'Y'
  else if i = 21 then (0x60, 0)                      -- NORWEGIAN_DANISH_NRCS: backtick
  else if i = 22 then (0x36, DEVCON_SEQ_FLAG_PERCENT) -- PORTUGUESE_NRCS: '6'
  else if i = 23 then (0x35, DEVCON_SEQ_FLAG_AND)    -- RUSSIAN_NRCS: '5'
  else if i = 24 then (0x33, DEVCON_SEQ_FLAG_PERCENT) -- SCS_NRCS: '3'
  else if i = 25 then (0x5a, 0)                      -- SPANISH_NRCS: 'Z'
  else if i = 26 then (0x37, 0)                      -- SWEDISH_NRCS: '7'
  else if i = 27 then (0x3d, 0)                      -- SWISS_NRCS: '='
  else if i = 28 then (0x30, DEVCON_SEQ_FLAG_PERCENT) -- TURKISH_DEC: '0'
  else if i = 29 then (0x32, DEVCON_SEQ_FLAG_PERCENT) -- TURKISH_NRCS: '2'
  -- special charsets
  else if i = 30 then (0x3c, 0)                      -- USERPREF_SUPPLEMENTAL: '<'
  -- secondary choices
  else if i = 43 then (0x43, 0)                      -- N + FINNISH_NRCS: 'C'
  else if i = 44 then (0x66, 0)                      -- N + FRENCH_NRCS: 'f'
  else if i = 45 then (0x51, 0)                      -- N + FRENCH_CANADIAN_NRCS: 'Q'
  else if i = 52 then (0x45, 0)                      -- N + NORWEGIAN_DANISH_NRCS: 'E'
  else if i = 57 then (0x48, 0)                      -- N + SWEDISH_NRCS: 'H' (unused)
  -- tertiary choices
  else if i = 83 then (0x36, 0)                      -- 2N + NORWEGIAN_DANISH_NRCS: '6'
  else (0, 0)

/-- The scan loop of `devcon_charset_from_cmd()`: find the first table
entry matching `(raw, flags)` whose reduced charset id also satisfies the
96-compat requirement; keep scanning past entries that fail it. -/
def charset_from_cmd_scan (raw flags : Nat) (require_96 : Bool) :
    List Nat → Option Nat
  | [] => none
  | i :: rest =>
    let e := charset_cmds i
    if e.1 = raw ∧ e.2 = flags then
      -- reduce secondary/tertiary indices: while cs >= N, cs -= N
      let cs := i % DEVCON_CHARSET_N
      if !require_96 ∨ cs < DEVCON_CHARSET_96_N ∨ cs ≥ DEVCON_CHARSET_94_N then
        some cs
      else charset_from_cmd_scan raw flags require_96 rest
    else charset_from_cmd_scan raw flags require_96 rest

/-- `devcon_charset_from_cmd()`: table size is 84 (largest initialised
index 83, plus one); `-ENOENT` becomes `none`. -/
def devcon_charset_from_cmd (raw flags : Nat) (require_96 : Bool) : Option Nat :=
  charset_from_cmd_scan raw flags require_96 (List.range 84)

/-- The kernel helper `hweight32`: the number of set bits among the low
32 bits. -/
def hweight32 (x : Nat) : Nat :=
  (List.range 32).countP (fun i => x.testBit i)

/-- `devcon_parse_host_escape()`: resolve an escape sequence; when the
intermediates designate a charset slot, look the charset up and dispatch
`SCS`, storing the charset id through `cs_out` (modelled by the second
component, `none` when `cs_out` is untouched). -/
def devcon_parse_host_escape (seq : devcon_seq) : devcon_cmd × Option Nat :=
  let flags := seq.intermediates
  let t := DEVCON_SEQ_FLAG_POPEN ||| DEVCON_SEQ_FLAG_PCLOSE |||
    DEVCON_SEQ_FLAG_MULT ||| DEVCON_SEQ_FLAG_PLUS |||
    DEVCON_SEQ_FLAG_MINUS ||| DEVCON_SEQ_FLAG_DOT ||| DEVCON_SEQ_FLAG_SLASH
  let cs : Option Nat :=
    if hweight32 (flags &&& t) = 1 then
      let ft := flags &&& t
      -- flags & ~t on a 32-bit unsigned int
      let rest := flags &&& ((2 ^ 32 - 1) ^^^ t)
      if ft = DEVCON_SEQ_FLAG_POPEN ∨ ft = DEVCON_SEQ_FLAG_PCLOSE ∨
         ft = DEVCON_SEQ_FLAG_MULT ∨ ft = DEVCON_SEQ_FLAG_PLUS then
        devcon_charset_from_cmd seq.terminator rest false
      else if ft = DEVCON_SEQ_FLAG_MINUS ∨ ft = DEVCON_SEQ_FLAG_DOT ∨
              ft = DEVCON_SEQ_FLAG_SLASH then
        devcon_charset_from_cmd seq.terminator rest true
      else none
    else none
  match cs with
  | some c => (.SCS, some c)
  | none =>
    -- looked like a charset-cmd but was not (or was none): plain escapes
    let cmd : devcon_cmd :=
      if seq.terminator = 0x33 then        -- '3'
        (if flags = DEVCON_SEQ_FLAG_HASH then .DECDHL_TH else .NONE)
      else if seq.terminator = 0x34 then   -- '4'
        (if flags = DEVCON_SEQ_FLAG_HASH then .DECDHL_BH else .NONE)
      else if seq.terminator = 0x35 then   -- '5'
        (if flags = DEVCON_SEQ_FLAG_HASH then .DECSWL else .NONE)
      else if seq.terminator = 0x36 then   -- '6'
        (if flags = 0 then .DECBI
         else if flags = DEVCON_SEQ_FLAG_HASH then .DECDWL else .NONE)
      else if seq.terminator = 0x37 then   -- '7'
        (if flags = 0 then .DECSC else .NONE)
      else if seq.terminator = 0x38 then   -- '8'
        (if flags = 0 then .DECRC
         else if flags = DEVCON_SEQ_FLAG_HASH then .DECALN else .NONE)
      else if seq.terminator = 0x39 then   -- '9'
        (if flags = 0 then .DECFI else .NONE)
      else if seq.terminator = 0x3c then   -- '<'
        (if flags = 0 then .DECANM else .NONE)
      else if seq.terminator = 0x3d then   -- '='
        (if flags = 0 then .DECKPAM else .NONE)
      else if seq.terminator = 0x3e then   -- '>'
        (if flags = 0 then .DECKPNM else .NONE)
      else if seq.terminator = 0x40 then   -- '@'
        (if flags = DEVCON_SEQ_FLAG_PERCENT then .XTERM_SDCS else .NONE)
      else if seq.terminator = 0x44 then   -- 'D'
        (if flags = 0 then .IND else .NONE)
      else if seq.terminator = 0x45 then   -- 'E'
        (if flags = 0 then .NEL else .NONE)
      else if seq.terminator = 0x46 then   -- 'F'
        (if flags = 0 then .XTERM_CLLHP
         else if flags = DEVCON_SEQ_FLAG_SPACE then .S7C1T else .NONE)
      else if seq.terminator = 0x47 then   -- 'G'
        (if flags = DEVCON_SEQ_FLAG_SPACE then .S8C1T
         else if flags = DEVCON_SEQ_FLAG_PERCENT then .XTERM_SUCS else .NONE)
      else if seq.terminator = 0x48 then   -- 'H'
        (if flags = 0 then .HTS else .NONE)
      else if seq.terminator = 0x4c then   -- 'L'
        (if flags = DEVCON_SEQ_FLAG_SPACE then .XTERM_SACL1 else .NONE)
      else if seq.terminator = 0x4d then   -- 'M'
        (if flags = 0 then .RI
         else if flags = DEVCON_SEQ_FLAG_SPACE then .XTERM_SACL2 else .NONE)
      else if seq.terminator = 0x4e then   -- 'N'
        (if flags = 0 then .SS2
         else if flags = DEVCON_SEQ_FLAG_SPACE then .XTERM_SACL3 else .NONE)
      else if seq.terminator = 0x4f then   -- 'O'
        (if flags = 0 then .SS3 else .NONE)
      -- 'P', 'X', '[', ']', '^', '_' are handled by the state-machine
      else if seq.terminator = 0x56 then   -- 'V'
        (if flags = 0 then .SPA else .NONE)
      else if seq.terminator = 0x57 then   -- 'W'
        (if flags = 0 then .EPA else .NONE)
      else if seq.terminator = 0x5a then   -- 'Z'
        (if flags = 0 then .DECID else .NONE)
      else if seq.terminator = 0x5c then   -- backslash
        (if flags = 0 then .ST else .NONE)
      else if seq.terminator = 0x63 then   -- 'c'
        (if flags = 0 then .RIS else .NONE)
      else if seq.terminator = 0x6c then   -- 'l'
        (if flags = 0 then .XTERM_MLHP else .NONE)
      else if seq.terminator = 0x6d then   -- 'm'
        (if flags = 0 then .XTERM_MUHP else .NONE)
      else if seq.terminator = 0x6e then   -- 'n'
        (if flags = 0 then .LS2 else .NONE)
      else if seq.terminator = 0x6f then   -- 'o'
        (if flags = 0 then .LS3 else .NONE)
      else if seq.terminator = 0x7c then   -- vertical bar
        (if flags = 0 then .LS3R else .NONE)
      else if seq.terminator = 0x7d then   -- right brace
        (if flags = 0 then .LS2R else .NONE)
      else if seq.terminator = 0x7e then   -- '~'
        (if flags = 0 then .LS1R else .NONE)
      else .NONE
    (cmd, none)

/-- `devcon_parse_host_csi()`: resolve a CSI sequence from its
terminator, intermediates and (for the ambiguous finals) argument
count or first argument. -/
def devcon_parse_host_csi (seq : devcon_seq) : devcon_cmd :=
  let flags := seq.intermediates
  if seq.terminator = 0x41 then        -- 'A'
    (if flags = 0 then .CUU else .NONE)
  else if seq.terminator = 0x61 then   -- 'a'
    (if flags = 0 then .HPR else .NONE)
  else if seq.terminator = 0x42 then   -- 'B'
    (if flags = 0 then .CUD else .NONE)
  else if seq.terminator = 0x62 then   -- 'b'
    (if flags = 0 then .REP else .NONE)
  else if seq.terminator = 0x43 then   -- 'C'
    (if flags = 0 then .CUF else .NONE)
  else if seq.terminator = 0x63 then   -- 'c'
    (if flags = 0 then .DA1
     else if flags = DEVCON_SEQ_FLAG_GT then .DA2
     else if flags = DEVCON_SEQ_FLAG_EQUAL then .DA3 else .NONE)
  else if seq.terminator = 0x44 then   -- 'D'
    (if flags = 0 then .CUB else .NONE)
  else if seq.terminator = 0x64 then   -- 'd'
    (if flags = 0 then .VPA else .NONE)
  else if seq.terminator = 0x45 then   -- 'E'
    (if flags = 0 then .CNL else .NONE)
  else if seq.terminator = 0x65 then   -- 'e'
    (if flags = 0 then .VPR else .NONE)
  else if seq.terminator = 0x46 then   -- 'F'
    (if flags = 0 then .CPL else .NONE)
  else if seq.terminator = 0x66 then   -- 'f'
    (if flags = 0 then .HVP else .NONE)
  else if seq.terminator = 0x47 then   -- 'G'
    (if flags = 0 then .CHA else .NONE)
  else if seq.terminator = 0x67 then   -- 'g'
    (if flags = 0 then .TBC
     else if flags = DEVCON_SEQ_FLAG_MULT then .DECLFKC else .NONE)
  else if seq.terminator = 0x48 then   -- 'H'
    (if flags = 0 then .CUP else .NONE)
  else if seq.terminator = 0x68 then   -- 'h'
    (if flags = 0 then .SM_ANSI
     else if flags = DEVCON_SEQ_FLAG_WHAT then .SM_DEC else .NONE)
  else if seq.terminator = 0x49 then   -- 'I'
    (if flags = 0 then .CHT else .NONE)
  else if seq.terminator = 0x69 then   -- 'i'
    (if flags = 0 then .MC_ANSI
     else if flags = DEVCON_SEQ_FLAG_WHAT then .MC_DEC else .NONE)
  else if seq.terminator = 0x4a then   -- 'J'
    (if flags = 0 then .ED
     else if flags = DEVCON_SEQ_FLAG_WHAT then .DECSED else .NONE)
  else if seq.terminator = 0x4b then   -- 'K'
    (if flags = 0 then .EL
     else if flags = DEVCON_SEQ_FLAG_WHAT then .DECSEL else .NONE)
  else if seq.terminator = 0x4c then   -- 'L'
    (if flags = 0 then .IL else .NONE)
  else if seq.terminator = 0x6c then   -- 'l'
    (if flags = 0 then .RM_ANSI
     else if flags = DEVCON_SEQ_FLAG_WHAT then .RM_DEC else .NONE)
  else if seq.terminator = 0x4d then   -- 'M'
    (if flags = 0 then .DL else .NONE)
  else if seq.terminator = 0x6d then   -- 'm'
    (if flags = 0 then .SGR
     else if flags = DEVCON_SEQ_FLAG_GT then .XTERM_SRV else .NONE)
  else if seq.terminator = 0x6e then   -- 'n'
    (if flags = 0 then .DSR_ANSI
     else if flags = DEVCON_SEQ_FLAG_GT then .XTERM_RRV
     else if flags = DEVCON_SEQ_FLAG_WHAT then .DSR_DEC else .NONE)
  else if seq.terminator = 0x50 then   -- 'P'
    (if flags = 0 then .DCH
     else if flags = DEVCON_SEQ_FLAG_SPACE then .PPA else .NONE)
  else if seq.terminator = 0x70 then   -- 'p'
    (if flags = 0 then .DECSSL
     else if flags = DEVCON_SEQ_FLAG_SPACE then .DECSSCLS
     else if flags = DEVCON_SEQ_FLAG_BANG then .DECSTR
     else if flags = DEVCON_SEQ_FLAG_DQUOTE then .DECSCL
     else if flags = DEVCON_SEQ_FLAG_CASH then .DECRQM_ANSI
     else if flags = DEVCON_SEQ_FLAG_CASH ||| DEVCON_SEQ_FLAG_WHAT then .DECRQM_DEC
     else if flags = DEVCON_SEQ_FLAG_PCLOSE then .DECSDPT
     else if flags = DEVCON_SEQ_FLAG_MULT then .DECSPPCS
     else if flags = DEVCON_SEQ_FLAG_PLUS then .DECSR
     else if flags = DEVCON_SEQ_FLAG_COMMA then .DECLTOD
     else if flags = DEVCON_SEQ_FLAG_GT then .XTERM_SPM else .NONE)
  else if seq.terminator = 0x51 then   -- 'Q'
    (if flags = DEVCON_SEQ_FLAG_SPACE then .PPR else .NONE)
  else if seq.terminator = 0x71 then   -- 'q'
    (if flags = 0 then .DECLL
     else if flags = DEVCON_SEQ_FLAG_SPACE then .DECSCUSR
     else if flags = DEVCON_SEQ_FLAG_DQUOTE then .DECSCA
     else if flags = DEVCON_SEQ_FLAG_CASH then .DECSDDT
     else if flags = DEVCON_SEQ_FLAG_MULT then .DECSR
     else if flags = DEVCON_SEQ_FLAG_PLUS then .DECELF
     else if flags = DEVCON_SEQ_FLAG_COMMA then .DECTID else .NONE)
  else if seq.terminator = 0x52 then   -- 'R'
    (if flags = DEVCON_SEQ_FLAG_SPACE then .PPB else .NONE)
  else if seq.terminator = 0x72 then   -- 'r'
    (if flags = 0 then .DECSTBM
     else if flags = DEVCON_SEQ_FLAG_SPACE then .DECSKCV
     else if flags = DEVCON_SEQ_FLAG_CASH then .DECCARA
     else if flags = DEVCON_SEQ_FLAG_MULT then .DECSCS
     else if flags = DEVCON_SEQ_FLAG_PLUS then .DECSMKR
     else if flags = DEVCON_SEQ_FLAG_WHAT then
       -- XTERM-RPM takes a single argument, DECPCTERM takes 2
       (if seq.n_args ≤ 1 then .XTERM_RPM else .DECPCTERM)
     else .NONE)
  else if seq.terminator = 0x53 then   -- 'S'
    (if flags = 0 then .SU
     else if flags = DEVCON_SEQ_FLAG_WHAT then .XTERM_SGFX else .NONE)
  else if seq.terminator = 0x73 then   -- 's'
    (if flags = 0 then .DECSLRM_OR_SC
     else if flags = DEVCON_SEQ_FLAG_CASH then .DECSPRTT
     else if flags = DEVCON_SEQ_FLAG_MULT then .DECSFC
     else if flags = DEVCON_SEQ_FLAG_WHAT then .XTERM_SPM else .NONE)
  else if seq.terminator = 0x54 then   -- 'T'
    (if flags = 0 then
       -- conflict between SD and XTERM IHMT, resolved by the parameter
       -- count: XTERM_IHMT needs 5 arguments (given a wider range for
       -- compat), SD takes fewer
       (if seq.n_args ≥ 5 then .XTERM_IHMT else .SD)
     else if flags = DEVCON_SEQ_FLAG_GT then .XTERM_RTM else .NONE)
  else if seq.terminator = 0x74 then   -- 't'
    (if flags = 0 then .XTERM_WM
     else if flags = DEVCON_SEQ_FLAG_SPACE then .DECSWBV
     else if flags = DEVCON_SEQ_FLAG_DQUOTE then .DECSRFR
     else if flags = DEVCON_SEQ_FLAG_CASH then .DECRARA
     else if flags = DEVCON_SEQ_FLAG_GT then .XTERM_STM else .NONE)
  else if seq.terminator = 0x55 then   -- 'U'
    (if flags = 0 then .NP else .NONE)
  else if seq.terminator = 0x75 then   -- 'u'
    (if flags = 0 then .RC
     else if flags = DEVCON_SEQ_FLAG_SPACE then .DECSMBV
     else if flags = DEVCON_SEQ_FLAG_DQUOTE then .DECSTRL
     else if flags = DEVCON_SEQ_FLAG_WHAT then .DECRQUPSS
     else if seq.args.getD 0 (-1) = 1 ∧ flags = DEVCON_SEQ_FLAG_CASH then .DECRQTSR
     else if flags = DEVCON_SEQ_FLAG_MULT then .DECSCP
     else if flags = DEVCON_SEQ_FLAG_COMMA then .DECRQKT else .NONE)
  else if seq.terminator = 0x56 then   -- 'V'
    (if flags = 0 then .PP else .NONE)
  else if seq.terminator = 0x76 then   -- 'v'
    (if flags = DEVCON_SEQ_FLAG_SPACE then .DECSLCK
     else if flags = DEVCON_SEQ_FLAG_DQUOTE then .DECRQDE
     else if flags = DEVCON_SEQ_FLAG_CASH then .DECCRA
     else if flags = DEVCON_SEQ_FLAG_COMMA then .DECRPKT else .NONE)
  else if seq.terminator = 0x57 then   -- 'W'
    (if seq.args.getD 0 (-1) = 5 ∧ flags = DEVCON_SEQ_FLAG_WHAT then .DECST8C
     else .NONE)
  else if seq.terminator = 0x77 then   -- 'w'
    (if flags = DEVCON_SEQ_FLAG_CASH then .DECRQPSR
     else if flags = DEVCON_SEQ_FLAG_SQUOTE then .DECEFR
     else if flags = DEVCON_SEQ_FLAG_PLUS then .DECSPP else .NONE)
  else if seq.terminator = 0x58 then   -- 'X'
    (if flags = 0 then .ECH else .NONE)
  else if seq.terminator = 0x78 then   -- 'x'
    (if flags = 0 then .DECREQTPARM
     else if flags = DEVCON_SEQ_FLAG_CASH then .DECFRA
     else if flags = DEVCON_SEQ_FLAG_MULT then .DECSACE
     else if flags = DEVCON_SEQ_FLAG_PLUS then .DECRQPKFM else .NONE)
  else if seq.terminator = 0x79 then   -- 'y'
    (if flags = 0 then .DECTST
     else if flags = DEVCON_SEQ_FLAG_MULT then .DECRQCRA
     else if flags = DEVCON_SEQ_FLAG_PLUS then .DECPKFMR else .NONE)
  else if seq.terminator = 0x5a then   -- 'Z'
    (if flags = 0 then .CBT else .NONE)
  else if seq.terminator = 0x7a then   -- 'z'
    (if flags = DEVCON_SEQ_FLAG_CASH then .DECERA
     else if flags = DEVCON_SEQ_FLAG_SQUOTE then .DECELR
     else if flags = DEVCON_SEQ_FLAG_MULT then .DECINVM
     else if flags = DEVCON_SEQ_FLAG_PLUS then .DECPKA else .NONE)
  else if seq.terminator = 0x40 then   -- '@'
    (if flags = 0 then .ICH else .NONE)
  else if seq.terminator = 0x60 then   -- backtick
    (if flags = 0 then .HPA else .NONE)
  else if seq.terminator = 0x7b then   -- left brace
    (if flags = DEVCON_SEQ_FLAG_CASH then .DECSERA
     else if flags = DEVCON_SEQ_FLAG_SQUOTE then .DECSLE else .NONE)
  else if seq.terminator = 0x7c then   -- vertical bar
    (if flags = DEVCON_SEQ_FLAG_CASH then .DECSCPP
     else if flags = DEVCON_SEQ_FLAG_SQUOTE then .DECRQLP
     else if flags = DEVCON_SEQ_FLAG_MULT then .DECSNLS else .NONE)
  else if seq.terminator = 0x7d then   -- right brace
    (if flags = DEVCON_SEQ_FLAG_SPACE then .DECKBD
     else if flags = DEVCON_SEQ_FLAG_CASH then .DECSASD
     else if flags = DEVCON_SEQ_FLAG_SQUOTE then .DECIC else .NONE)
  else if seq.terminator = 0x7e then   -- '~'
    (if flags = DEVCON_SEQ_FLAG_SPACE then .DECTME
     else if flags = DEVCON_SEQ_FLAG_CASH then .DECSSDT
     else if flags = DEVCON_SEQ_FLAG_SQUOTE then .DECDC else .NONE)
  else .NONE

/-! ## Control-sequence parser: state machine (parser.c)

The Paul-Williams-style state machine.  `devcon_parser_feed` applies the
global (C1-cancellation) edges first and otherwise the per-state table;
each transition optionally dispatches an action.  The DCS/OSC actions are
unimplemented stubs in the source.
-/

/-- Parser states (enum `parser_state`). -/
inductive parser_state where
  | NONE | GROUND | ESC | ESC_INT
  | CSI_ENTRY | CSI_PARAM | CSI_INT | CSI_IGNORE
  | DCS_ENTRY | DCS_PARAM | DCS_INT | DCS_PASS | DCS_IGNORE
  | OSC_STRING | ST_IGNORE
deriving DecidableEq

/-- Parser actions (enum `parser_action`). -/
inductive parser_action where
  | NONE | CLEAR | IGNORE | PRINT | EXECUTE | COLLECT | PARAM
  | ESC_DISPATCH | CSI_DISPATCH
  | DCS_START | DCS_COLLECT | DCS_CONSUME | DCS_DISPATCH
  | OSC_START | OSC_COLLECT | OSC_CONSUME | OSC_DISPATCH
deriving DecidableEq

/-- A `struct devcon_parser` (the `st_alloc` bookkeeping of the omitted
`st` buffer is dropped with it). -/
structure devcon_parser_s where
  seq : devcon_seq
  state : parser_state
deriving DecidableEq

/-- A parser fresh from `devcon_parser_new()` (kzalloc): zeroed sequence
(args all 0, not yet -1) and the zero state `NONE`, which the machine
treats as `GROUND`. -/
def devcon_parser_init : devcon_parser_s :=
  { seq := { type := DEVCON_SEQ_NONE, command := .NONE, terminator := 0,
             intermediates := 0, charset := DEVCON_CHARSET_NONE,
             n_args := 0, args := List.replicate DEVCON_PARSER_ARG_MAX 0,
             n_st := 0 },
    state := .NONE }

/-- `parser_clear()`: reset the sequence buffer (`args[i] = -1`,
`n_args = 0`, `intermediates = 0`, ...). -/
def parser_clear (parser : devcon_parser_s) : devcon_parser_s :=
  { parser with seq := { parser.seq with
      command := .NONE,
      terminator := 0,
      intermediates := 0,
      charset := DEVCON_CHARSET_NONE,
      n_args := 0,
      args := List.replicate DEVCON_PARSER_ARG_MAX (-1),
      n_st := 0 } }

/-- `parser_ignore()`: dispatch a no-op character. -/
def parser_ignore (parser : devcon_parser_s) (raw : Nat) : devcon_parser_s × Nat :=
  let parser := parser_clear parser
  let parser := { parser with seq := { parser.seq with
      type := DEVCON_SEQ_IGNORE, command := .NONE, terminator := raw,
      charset := DEVCON_CHARSET_NONE } }
  (parser, DEVCON_SEQ_IGNORE)

/-- `parser_print()`: dispatch a graphic character. -/
def parser_print (parser : devcon_parser_s) (raw : Nat) : devcon_parser_s × Nat :=
  let parser := parser_clear parser
  let parser := { parser with seq := { parser.seq with
      type := DEVCON_SEQ_GRAPHIC, command := .GRAPHIC, terminator := raw,
      charset := DEVCON_CHARSET_NONE } }
  (parser, DEVCON_SEQ_GRAPHIC)

/-- `parser_execute()`: dispatch a control character. -/
def parser_execute (parser : devcon_parser_s) (raw : Nat) : devcon_parser_s × Nat :=
  let parser := parser_clear parser
  let seq1 := { parser.seq with
      type := DEVCON_SEQ_CONTROL, command := .GRAPHIC, terminator := raw,
      charset := DEVCON_CHARSET_NONE }
  let seq2 := { seq1 with command := devcon_parse_host_control seq1 }
  ({ parser with seq := seq2 }, DEVCON_SEQ_CONTROL)

/-- `parser_collect()`: record an intermediate character as a flag bit. -/
def parser_collect (parser : devcon_parser_s) (raw : Nat) : devcon_parser_s :=
  if 0x20 ≤ raw ∧ raw ≤ 0x3f then
    { parser with seq := { parser.seq with
        intermediates := parser.seq.intermediates ||| (1 <<< (raw - 0x20)) } }
  else parser

/-- `parser_param()`: a semicolon opens the next argument (up to
`DEVCON_PARSER_ARG_MAX`); a digit accumulates into the current argument,
initialising it from -1 and clamping at 0xffff; anything for an argument
beyond the bound is discarded. -/
def parser_param (parser : devcon_parser_s) (raw : Nat) : devcon_parser_s :=
  if raw = 0x3b then                    -- ';'
    if parser.seq.n_args < DEVCON_PARSER_ARG_MAX then
      { parser with seq := { parser.seq with n_args := parser.seq.n_args + 1 } }
    else parser
  else if parser.seq.n_args ≥ DEVCON_PARSER_ARG_MAX then parser
  else if 0x30 ≤ raw ∧ raw ≤ 0x39 then  -- '0' to '9'
    let old := parser.seq.args.getD parser.seq.n_args (-1)
    let v0 : Int := if old < 0 then 0 else old
    let v1 : Int := v0 * 10 + ((raw - 0x30 : Nat) : Int)
    let v2 : Int := if v1 > 0xffff then 0xffff else v1
    { parser with seq := { parser.seq with
        args := parser.seq.args.set parser.seq.n_args v2 } }
  else parser

/-- `parser_esc()`: dispatch an escape sequence through the command
resolver; the charset is written only on the `SCS` path. -/
def parser_esc (parser : devcon_parser_s) (raw : Nat) : devcon_parser_s × Nat :=
  let seq1 := { parser.seq with
      type := DEVCON_SEQ_ESCAPE, command := .NONE, terminator := raw,
      charset := DEVCON_CHARSET_NONE }
  let r := devcon_parse_host_escape seq1
  let seq2 := { seq1 with command := r.1, charset := r.2.getD seq1.charset }
  ({ parser with seq := seq2 }, DEVCON_SEQ_ESCAPE)

/-- `parser_csi()`: close the pending argument (when one was opened or
written) and dispatch through the CSI command resolver. -/
def parser_csi (parser : devcon_parser_s) (raw : Nat) : devcon_parser_s × Nat :=
  -- parser->seq was cleared during CSI-ENTER, no need to clear here
  let seq0 := parser.seq
  let seq1 := if seq0.n_args < DEVCON_PARSER_ARG_MAX ∧
                 (seq0.n_args > 0 ∨ seq0.args.getD seq0.n_args (-1) ≥ 0)
              then { seq0 with n_args := seq0.n_args + 1 } else seq0
  let seq2 := { seq1 with
      type := DEVCON_SEQ_CSI, command := .NONE, terminator := raw,
      charset := DEVCON_CHARSET_NONE }
  let seq3 := { seq2 with command := devcon_parse_host_csi seq2 }
  ({ parser with seq := seq3 }, DEVCON_SEQ_CSI)

/-- `parser_transition()`: perform the state transition (a `NONE` state
keeps the current one) and run the action; the returned number is the
dispatched sequence type, `DEVCON_SEQ_NONE` when nothing completed.  The
DCS/OSC actions are not implemented in the source and return nothing. -/
def parser_transition (parser : devcon_parser_s) (raw : Nat)
    (state : parser_state) (action : parser_action) : devcon_parser_s × Nat :=
  let parser := if state = parser_state.NONE then parser
                else { parser with state := state }
  match action with
  | .NONE => (parser, DEVCON_SEQ_NONE)
  | .CLEAR => (parser_clear parser, DEVCON_SEQ_NONE)
  | .IGNORE => parser_ignore parser raw
  | .PRINT => parser_print parser raw
  | .EXECUTE => parser_execute parser raw
  | .COLLECT => (parser_collect parser raw, DEVCON_SEQ_NONE)
  | .PARAM => (parser_param parser raw, DEVCON_SEQ_NONE)
  | .ESC_DISPATCH => parser_esc parser raw
  | .CSI_DISPATCH => parser_csi parser raw
  | .DCS_START => (parser, DEVCON_SEQ_NONE)
  | .DCS_COLLECT => (parser, DEVCON_SEQ_NONE)
  | .DCS_CONSUME => (parser, DEVCON_SEQ_NONE)
  | .DCS_DISPATCH => (parser, DEVCON_SEQ_NONE)
  | .OSC_START => (parser, DEVCON_SEQ_NONE)
  | .OSC_COLLECT => (parser, DEVCON_SEQ_NONE)
  | .OSC_CONSUME => (parser, DEVCON_SEQ_NONE)
  | .OSC_DISPATCH => (parser, DEVCON_SEQ_NONE)

/-- `parser_feed_to_state()`: the per-state transition table. -/
def parser_feed_to_state (parser : devcon_parser_s) (raw : Nat) :
    devcon_parser_s × Nat :=
  match parser.state with
  | .NONE | .GROUND =>
    -- STATE_NONE is the cleared initial state and is treated as GROUND
    if raw ≤ 0x1f then                                  -- C0
      parser_transition parser raw .NONE .EXECUTE
    else if 0x80 ≤ raw ∧ raw ≤ 0x9b then                -- C1 minus ST
      parser_transition parser raw .NONE .EXECUTE
    else if raw = 0x9c then                             -- ST
      parser_transition parser raw .NONE .IGNORE
    else if 0x9d ≤ raw ∧ raw ≤ 0x9f then
      parser_transition parser raw .NONE .EXECUTE
    else
      parser_transition parser raw .NONE .PRINT
  | .ESC =>
    if raw ≤ 0x1f then                                  -- C0
      parser_transition parser raw .NONE .EXECUTE
    else if 0x20 ≤ raw ∧ raw ≤ 0x2f then
      parser_transition parser raw .ESC_INT .COLLECT
    else if raw = 0x50 then                             -- 'P'
      parser_transition parser raw .DCS_ENTRY .CLEAR
    else if raw = 0x5b then                             -- left bracket
      parser_transition parser raw .CSI_ENTRY .CLEAR
    else if raw = 0x5d then                             -- right bracket
      parser_transition parser raw .OSC_STRING .CLEAR
    else if raw = 0x58 ∨ raw = 0x5e ∨ raw = 0x5f then   -- 'X', '^', '_'
      parser_transition parser raw .ST_IGNORE .NONE
    else if 0x30 ≤ raw ∧ raw ≤ 0x7e then
      parser_transition parser raw .GROUND .ESC_DISPATCH
    else if raw = 0x7f then                             -- DEL
      parser_transition parser raw .NONE .IGNORE
    else if raw = 0x9c then                             -- ST
      parser_transition parser raw .GROUND .IGNORE
    else
      parser_transition parser raw .ESC_INT .COLLECT
  | .ESC_INT =>
    if raw ≤ 0x1f then
      parser_transition parser raw .NONE .EXECUTE
    else if 0x20 ≤ raw ∧ raw ≤ 0x2f then
      parser_transition parser raw .NONE .COLLECT
    else if 0x30 ≤ raw ∧ raw ≤ 0x7e then
      parser_transition parser raw .GROUND .ESC_DISPATCH
    else if raw = 0x7f then
      parser_transition parser raw .NONE .IGNORE
    else if raw = 0x9c then
      parser_transition parser raw .GROUND .IGNORE
    else
      parser_transition parser raw .NONE .COLLECT
  | .CSI_ENTRY =>
    if raw ≤ 0x1f then
      parser_transition parser raw .NONE .EXECUTE
    else if 0x20 ≤ raw ∧ raw ≤ 0x2f then
      parser_transition parser raw .CSI_INT .COLLECT
    else if raw = 0x3a then                             -- ':'
      parser_transition parser raw .CSI_IGNORE .NONE
    else if (0x30 ≤ raw ∧ raw ≤ 0x39) ∨ raw = 0x3b then
      parser_transition parser raw .CSI_PARAM .PARAM
    else if 0x3c ≤ raw ∧ raw ≤ 0x3f then
      parser_transition parser raw .CSI_PARAM .COLLECT
    else if 0x40 ≤ raw ∧ raw ≤ 0x7e then
      parser_transition parser raw .GROUND .CSI_DISPATCH
    else if raw = 0x7f then
      parser_transition parser raw .NONE .IGNORE
    else if raw = 0x9c then
      parser_transition parser raw .GROUND .IGNORE
    else
      parser_transition parser raw .CSI_IGNORE .NONE
  | .CSI_PARAM =>
    if raw ≤ 0x1f then
      parser_transition parser raw .NONE .EXECUTE
    else if 0x20 ≤ raw ∧ raw ≤ 0x2f then
      parser_transition parser raw .CSI_INT .COLLECT
    else if (0x30 ≤ raw ∧ raw ≤ 0x39) ∨ raw = 0x3b then
      parser_transition parser raw .NONE .PARAM
    else if raw = 0x3a ∨ (0x3c ≤ raw ∧ raw ≤ 0x3f) then
      parser_transition parser raw .CSI_IGNORE .NONE
    else if 0x40 ≤ raw ∧ raw ≤ 0x7e then
      parser_transition parser raw .GROUND .CSI_DISPATCH
    else if raw = 0x7f then
      parser_transition parser raw .NONE .IGNORE
    else if raw = 0x9c then
      parser_transition parser raw .GROUND .IGNORE
    else
      parser_transition parser raw .CSI_IGNORE .NONE
  | .CSI_INT =>
    if raw ≤ 0x1f then
      parser_transition parser raw .NONE .EXECUTE
    else if 0x20 ≤ raw ∧ raw ≤ 0x2f then
      parser_transition parser raw .NONE .COLLECT
    else if 0x30 ≤ raw ∧ raw ≤ 0x3f then
      parser_transition parser raw .CSI_IGNORE .NONE
    else if 0x40 ≤ raw ∧ raw ≤ 0x7e then
      parser_transition parser raw .GROUND .CSI_DISPATCH
    else if raw = 0x7f then
      parser_transition parser raw .NONE .IGNORE
    else if raw = 0x9c then
      parser_transition parser raw .GROUND .IGNORE
    else
      parser_transition parser raw .CSI_IGNORE .NONE
  | .CSI_IGNORE =>
    if raw ≤ 0x1f then
      parser_transition parser raw .NONE .EXECUTE
    else if 0x20 ≤ raw ∧ raw ≤ 0x3f then
      parser_transition parser raw .NONE .NONE
    else if 0x40 ≤ raw ∧ raw ≤ 0x7e then
      parser_transition parser raw .GROUND .NONE
    else if raw = 0x7f then
      parser_transition parser raw .NONE .IGNORE
    else if raw = 0x9c then
      parser_transition parser raw .GROUND .IGNORE
    else
      parser_transition parser raw .NONE .NONE
  | .DCS_ENTRY =>
    if raw ≤ 0x1f then
      parser_transition parser raw .NONE .IGNORE
    else if 0x20 ≤ raw ∧ raw ≤ 0x2f then
      parser_transition parser raw .DCS_INT .COLLECT
    else if raw = 0x3a then
      parser_transition parser raw .DCS_IGNORE .NONE
    else if (0x30 ≤ raw ∧ raw ≤ 0x39) ∨ raw = 0x3b then
      parser_transition parser raw .DCS_PARAM .PARAM
    else if 0x3c ≤ raw ∧ raw ≤ 0x3f then
      parser_transition parser raw .DCS_PARAM .COLLECT
    else if 0x40 ≤ raw ∧ raw ≤ 0x7e then
      parser_transition parser raw .DCS_PASS .DCS_CONSUME
    else if raw = 0x7f then
      parser_transition parser raw .NONE .IGNORE
    else if raw = 0x9c then
      parser_transition parser raw .GROUND .IGNORE
    else
      parser_transition parser raw .DCS_PASS .DCS_CONSUME
  | .DCS_PARAM =>
    if raw ≤ 0x1f then
      parser_transition parser raw .NONE .IGNORE
    else if 0x20 ≤ raw ∧ raw ≤ 0x2f then
      parser_transition parser raw .DCS_INT .COLLECT
    else if (0x30 ≤ raw ∧ raw ≤ 0x39) ∨ raw = 0x3b then
      parser_transition parser raw .NONE .PARAM
    else if raw = 0x3a ∨ (0x3c ≤ raw ∧ raw ≤ 0x3f) then
      parser_transition parser raw .DCS_IGNORE .NONE
    else if 0x40 ≤ raw ∧ raw ≤ 0x7e then
      parser_transition parser raw .DCS_PASS .DCS_CONSUME
    else if raw = 0x7f then
      parser_transition parser raw .NONE .IGNORE
    else if raw = 0x9c then
      parser_transition parser raw .GROUND .IGNORE
    else
      parser_transition parser raw .DCS_PASS .DCS_CONSUME
  | .DCS_INT =>
    if raw ≤ 0x1f then
      parser_transition parser raw .NONE .IGNORE
    else if 0x20 ≤ raw ∧ raw ≤ 0x2f then
      parser_transition parser raw .NONE .COLLECT
    else if 0x30 ≤ raw ∧ raw ≤ 0x3f then
      parser_transition parser raw .DCS_IGNORE .NONE
    else if 0x40 ≤ raw ∧ raw ≤ 0x7e then
      parser_transition parser raw .DCS_PASS .DCS_CONSUME
    else if raw = 0x7f then
      parser_transition parser raw .NONE .IGNORE
    else if raw = 0x9c then
      parser_transition parser raw .GROUND .IGNORE
    else
      parser_transition parser raw .DCS_PASS .DCS_CONSUME
  | .DCS_PASS =>
    if raw ≤ 0x7e then                                  -- ASCII minus DEL
      parser_transition parser raw .NONE .DCS_COLLECT
    else if raw = 0x7f then
      parser_transition parser raw .NONE .IGNORE
    else if raw = 0x9c then
      parser_transition parser raw .GROUND .DCS_DISPATCH
    else
      parser_transition parser raw .NONE .DCS_COLLECT
  | .DCS_IGNORE =>
    if raw ≤ 0x7f then                                  -- ASCII
      parser_transition parser raw .NONE .IGNORE
    else if raw = 0x9c then
      parser_transition parser raw .GROUND .NONE
    else
      parser_transition parser raw .NONE .NONE
  | .OSC_STRING =>
    if raw ≤ 0x06 ∨ (0x08 ≤ raw ∧ raw ≤ 0x1f) then      -- C0 minus BEL
      parser_transition parser raw .NONE .IGNORE
    else if raw = 0x07 ∨ raw = 0x9c then                -- BEL, ST
      parser_transition parser raw .GROUND .OSC_DISPATCH
    else if 0x20 ≤ raw ∧ raw ≤ 0x7f then
      parser_transition parser raw .NONE .OSC_COLLECT
    else
      parser_transition parser raw .NONE .OSC_COLLECT
  | .ST_IGNORE =>
    if raw ≤ 0x7f then                                  -- ASCII
      parser_transition parser raw .NONE .IGNORE
    else if raw = 0x9c then
      parser_transition parser raw .GROUND .IGNORE
    else
      parser_transition parser raw .NONE .NONE

/-- `devcon_parser_feed()`: the global edges (CAN, SUB, ESC and the C1
codes cancel any sequence in progress) and otherwise the per-state
table.  The dispatched sequence (`*seq_out`) is `parser.seq` exactly when
the returned type is positive. -/
def devcon_parser_feed (parser : devcon_parser_s) (raw : Nat) :
    devcon_parser_s × Nat :=
  if raw = 0x18 then                                    -- CAN
    parser_transition parser raw .GROUND .IGNORE
  else if raw = 0x1a then                               -- SUB
    parser_transition parser raw .GROUND .EXECUTE
  else if (0x80 ≤ raw ∧ raw ≤ 0x8f) ∨ (0x91 ≤ raw ∧ raw ≤ 0x97) ∨
          (0x99 ≤ raw ∧ raw ≤ 0x9a) then                -- other C1
    parser_transition parser raw .GROUND .EXECUTE
  else if raw = 0x1b then                               -- ESC
    parser_transition parser raw .ESC .CLEAR
  else if raw = 0x98 ∨ raw = 0x9e ∨ raw = 0x9f then     -- SOS, PM, APC
    parser_transition parser raw .ST_IGNORE .NONE
  else if raw = 0x90 then                               -- DCS
    parser_transition parser raw .DCS_ENTRY .CLEAR
  else if raw = 0x9d then                               -- OSC
    parser_transition parser raw .OSC_STRING .CLEAR
  else if raw = 0x9b then                               -- CSI
    parser_transition parser raw .CSI_ENTRY .CLEAR
  else
    parser_feed_to_state parser raw

/-- Feed a list of UCS-4 values, collecting the return value (the
dispatched sequence type or `DEVCON_SEQ_NONE`) of each call. -/
def devcon_parser_feed_list (parser : devcon_parser_s) :
    List Nat → devcon_parser_s × List Nat
  | [] => (parser, [])
  | raw :: rest =>
    let r := devcon_parser_feed parser raw
    let r2 := devcon_parser_feed_list r.1 rest
    (r2.1, r.2 :: r2.2)

/-- A character sequence together with a list of arbitrary valid code
points it can be built from (used to specify `devcon_char_build` and
`devcon_char_resolve` over all reachable characters). -/
inductive char_rep : devcon_char → List Nat → Prop where
  | nil : char_rep DEVCON_CHAR_NULL []
  | one (v1 : Nat) (h1 : v1 ≤ DEVCON_CHAR_UCS4_MAX) :
      char_rep (devcon_char_pack1 v1) [v1]
  | two (v1 v2 : Nat) (h1 : v1 ≤ DEVCON_CHAR_UCS4_MAX)
      (h2 : v2 ≤ DEVCON_CHAR_UCS4_MAX) :
      char_rep (devcon_char_pack2 v1 v2) [v1, v2]
  | three (v1 v2 v3 : Nat) (h1 : v1 ≤ DEVCON_CHAR_UCS4_MAX)
      (h2 : v2 ≤ DEVCON_CHAR_UCS4_MAX) (h3 : v3 ≤ DEVCON_CHAR_UCS4_MAX) :
      char_rep (devcon_char_pack3 v1 v2 v3) [v1, v2, v3]
  | alloc (cps : List Nat) : char_rep (devcon_char.alloc cps) cps

/-- A one-column cell holding code point `c`, protected iff `p` (scenario
data for the erase-with-protect claim). -/
def c1_cell (c : Nat) (p : Bool) : devcon_cell :=
  { ch := devcon_char_pack1 c, cwidth := 1, age := 0,
    attr := { devcon_attr_null with protect := p } }

/-- A width-5 line holding `A B C D E` with `attr.protect` set only at
index 2, `fill = 5`. -/
def c1_line : devcon_line :=
  { width := 5, fill := 5, age := 0,
    cells := [c1_cell 0x41 false, c1_cell 0x42 false, c1_cell 0x43 true,
              c1_cell 0x44 false, c1_cell 0x45 false] }

/-- A width-2 line holding code points `c1 c2`, full fill (scenario data
for the scroll-symmetry witness). -/
def c5_line (c1 c2 : Nat) : devcon_line :=
  { width := 2, fill := 2, age := 0,
    cells := [c1_cell c1 false, c1_cell c2 false] }

/-- A 2x2 page whose whole area is the scroll region, holding lines
`AB` and `CD` (scenario data for the scroll-symmetry witness). -/
def c5_page : devcon_page :=
  { age := 0, lines := [c5_line 0x41 0x42, c5_line 0x43 0x44],
    width := 2, height := 2, scroll_idx := 0, scroll_num := 2,
    scroll_fill := 2 }

/-- An empty history with room for 8 lines (scenario data). -/
def c5_history : devcon_history :=
  { lines := [], n_lines := 0, max_lines := 8 }

/-- A history holding one line of width 2 with only 2 cells allocated
(scenario data for the pop-failure witness: reserving it to width 3
needs an allocation). -/
def c8_history : devcon_history :=
  { lines := [c5_line 0x41 0x42], n_lines := 1, max_lines := 8 }

/-! ## Bit-level facts about the packed character word -/

/-- The packed word in plain arithmetic: the three masked slots occupy
disjoint bit ranges above the tag bit. -/
theorem packval_eq (a b c : Nat) (ha : a < 2 ^ 21) (hb : b < 2 ^ 21)
    (hc : c < 2 ^ 21) :
    devcon_char_packval a b c = 2 ^ 43 * a + 2 ^ 22 * b + 2 * c + 1 := by
  have hmask : (DEVCON_CHAR_UCS4_MASK : Nat) = 2 ^ 21 - 1 := by
    unfold DEVCON_CHAR_UCS4_MASK; norm_num
  unfold devcon_char_packval
  rw [hmask, Nat.and_pow_two_sub_one_eq_mod, Nat.and_pow_two_sub_one_eq_mod,
      Nat.and_pow_two_sub_one_eq_mod, Nat.mod_eq_of_lt ha, Nat.mod_eq_of_lt hb,
      Nat.mod_eq_of_lt hc, Nat.shiftLeft_eq, Nat.shiftLeft_eq, Nat.shiftLeft_eq,
      Nat.or_assoc, Nat.or_assoc]
  have h3 : b * 2 ^ 22 ||| c * 2 ^ 1 = 2 ^ 22 * b + 2 * c := by
    rw [Nat.mul_comm b, show c * 2 ^ 1 = 2 * c by ring,
        ← Nat.mul_add_lt_is_or (by omega) b]
  rw [h3]
  have h2 : a * 2 ^ 43 ||| (2 ^ 22 * b + 2 * c) = 2 ^ 43 * a + (2 ^ 22 * b + 2 * c) := by
    rw [Nat.mul_comm a, ← Nat.mul_add_lt_is_or (by omega) a]
  rw [h2]
  have h1 : (1 : Nat) ||| (2 ^ 43 * a + (2 ^ 22 * b + 2 * c)) =
      2 ^ 43 * a + (2 ^ 22 * b + 2 * c) + 1 := by
    have e : 2 ^ 43 * a + (2 ^ 22 * b + 2 * c) =
        2 ^ 1 * (2 ^ 42 * a + (2 ^ 21 * b + c)) := by ring
    rw [Nat.or_comm, e, ← Nat.mul_add_lt_is_or (by omega)]
  rw [h1]
  ring

/-- Unpacking a packed word recovers the three slots and counts the
leading slots holding valid values. -/
theorem unpack_packval (a b c : Nat) (ha : a < 2 ^ 21) (hb : b < 2 ^ 21)
    (hc : c < 2 ^ 21) :
    devcon_char_unpack (devcon_char_packval a b c) =
      ((if a > DEVCON_CHAR_UCS4_MAX then 0
        else if b > DEVCON_CHAR_UCS4_MAX then 1
        else if c > DEVCON_CHAR_UCS4_MAX then 2
        else 3), a, b, c) := by
  have hmask : (DEVCON_CHAR_UCS4_MASK : Nat) = 2 ^ 21 - 1 := by
    unfold DEVCON_CHAR_UCS4_MASK; norm_num
  have hp := packval_eq a b c ha hb hc
  have e1 : (devcon_char_packval a b c >>> 43) &&& DEVCON_CHAR_UCS4_MASK = a := by
    rw [hp, hmask, Nat.shiftRight_eq_div_pow, Nat.and_pow_two_sub_one_eq_mod]
    omega
  have e2 : (devcon_char_packval a b c >>> 22) &&& DEVCON_CHAR_UCS4_MASK = b := by
    rw [hp, hmask, Nat.shiftRight_eq_div_pow, Nat.and_pow_two_sub_one_eq_mod]
    omega
  have e3 : (devcon_char_packval a b c >>> 1) &&& DEVCON_CHAR_UCS4_MASK = c := by
    rw [hp, hmask, Nat.shiftRight_eq_div_pow, Nat.and_pow_two_sub_one_eq_mod]
    omega
  simp only [devcon_char_unpack, e1, e2, e3]

/-- A packed word is never the null word (the tag bit is set). -/
theorem packval_ne_zero (a b c : Nat) (ha : a < 2 ^ 21) (hb : b < 2 ^ 21)
    (hc : c < 2 ^ 21) : devcon_char_packval a b c ≠ 0 := by
  rw [packval_eq a b c ha hb hc]; omega

/-! ## The character build/resolve specification over `char_rep` -/

/-- Valid code points fit the 21-bit slots. -/
theorem valid_lt_two_pow_21 {v : Nat} (h : v ≤ DEVCON_CHAR_UCS4_MAX) :
    v < 2 ^ 21 := by
  unfold DEVCON_CHAR_UCS4_MAX at h; omega

/-- The absent sentinel fits the 21-bit slots. -/
theorem sentinel_lt_two_pow_21 : DEVCON_CHAR_UCS4_MAX + 1 < 2 ^ 21 := by
  unfold DEVCON_CHAR_UCS4_MAX; norm_num

/-- Resolving a character yields exactly its represented code points with
a zero terminator and their count. -/
theorem resolve_rep (ch : devcon_char) (l : List Nat) (h : char_rep ch l) :
    devcon_char_resolve ch = (l ++ [0], l.length) := by
  cases h with
  | nil => simp [devcon_char_resolve, DEVCON_CHAR_NULL]
  | one v1 h1 =>
    have hv1 := valid_lt_two_pow_21 h1
    have hs := sentinel_lt_two_pow_21
    simp only [devcon_char_pack1, devcon_char_pack2, devcon_char_pack3,
      devcon_char_pack, devcon_char_resolve]
    rw [if_neg (packval_ne_zero _ _ _ hv1 hs hs),
        unpack_packval _ _ _ hv1 hs hs]
    simp only [gt_iff_lt]
    rw [if_neg (by omega), if_pos (by omega)]
    simp
  | two v1 v2 h1 h2 =>
    have hv1 := valid_lt_two_pow_21 h1
    have hv2 := valid_lt_two_pow_21 h2
    have hs := sentinel_lt_two_pow_21
    simp only [devcon_char_pack2, devcon_char_pack3, devcon_char_pack,
      devcon_char_resolve]
    rw [if_neg (packval_ne_zero _ _ _ hv1 hv2 hs),
        unpack_packval _ _ _ hv1 hv2 hs]
    simp only [gt_iff_lt]
    rw [if_neg (by omega), if_neg (by omega), if_pos (by omega)]
    simp
  | three v1 v2 v3 h1 h2 h3 =>
    have hv1 := valid_lt_two_pow_21 h1
    have hv2 := valid_lt_two_pow_21 h2
    have hv3 := valid_lt_two_pow_21 h3
    simp only [devcon_char_pack3, devcon_char_pack, devcon_char_resolve]
    rw [if_neg (packval_ne_zero _ _ _ hv1 hv2 hv3),
        unpack_packval _ _ _ hv1 hv2 hv3]
    simp only [gt_iff_lt]
    rw [if_neg (by omega), if_neg (by omega), if_neg (by omega)]
    simp
  | alloc cps => simp [devcon_char_resolve]

/-- Building with a valid code point onto a character below the soft
limit appends the code point. -/
theorem build_rep_append (ch : devcon_char) (l : List Nat) (u : Nat)
    (h : char_rep ch l) (hu : u ≤ DEVCON_CHAR_UCS4_MAX)
    (hlen : l.length < 64) :
    char_rep (devcon_char_build ch u) (l ++ [u]) := by
  cases h with
  | nil =>
    simp only [devcon_char_build, devcon_char_is_null, DEVCON_CHAR_NULL]
    rw [if_neg (by omega)]
    simpa using char_rep.one u hu
  | one v1 h1 =>
    have hv1 := valid_lt_two_pow_21 h1
    have hs := sentinel_lt_two_pow_21
    simp only [devcon_char_pack1, devcon_char_pack2, devcon_char_pack3,
      devcon_char_pack, devcon_char_build, devcon_char_is_null]
    rw [if_neg (by omega), if_neg (by simpa using packval_ne_zero _ _ _ hv1 hs hs),
        unpack_packval _ _ _ hv1 hs hs]
    simp only [gt_iff_lt]
    rw [if_neg (by omega), if_pos (by omega)]
    simpa using char_rep.two v1 u h1 hu
  | two v1 v2 h1 h2 =>
    have hv1 := valid_lt_two_pow_21 h1
    have hv2 := valid_lt_two_pow_21 h2
    have hs := sentinel_lt_two_pow_21
    simp only [devcon_char_pack2, devcon_char_pack3, devcon_char_pack,
      devcon_char_build, devcon_char_is_null]
    rw [if_neg (by omega), if_neg (by simpa using packval_ne_zero _ _ _ hv1 hv2 hs),
        unpack_packval _ _ _ hv1 hv2 hs]
    simp only [gt_iff_lt]
    rw [if_neg (by omega), if_neg (by omega), if_pos (by omega)]
    simpa using char_rep.three v1 v2 u h1 h2 hu
  | three v1 v2 v3 h1 h2 h3 =>
    have hv1 := valid_lt_two_pow_21 h1
    have hv2 := valid_lt_two_pow_21 h2
    have hv3 := valid_lt_two_pow_21 h3
    simp only [devcon_char_pack3, devcon_char_pack, devcon_char_build,
      devcon_char_is_null]
    rw [if_neg (by omega), if_neg (by simpa using packval_ne_zero _ _ _ hv1 hv2 hv3),
        unpack_packval _ _ _ hv1 hv2 hv3]
    simp only [gt_iff_lt]
    rw [if_neg (by omega), if_neg (by omega), if_neg (by omega)]
    simpa using char_rep.alloc [v1, v2, v3, u]
  | alloc cps =>
    simp only [devcon_char_build, devcon_char_is_null]
    rw [if_neg (by omega)]
    simp only [Bool.false_eq_true, if_false]
    rw [if_neg (by omega)]
    exact char_rep.alloc (l ++ [u])

/-- Building onto a character at (or beyond) the soft limit returns the
character unchanged, for any appended value. -/
theorem build_rep_reject (ch : devcon_char) (l : List Nat) (u : Nat)
    (h : char_rep ch l) (hlen : 64 ≤ l.length) :
    devcon_char_build ch u = ch := by
  cases h with
  | nil => simp at hlen
  | one v1 h1 => simp at hlen
  | two v1 v2 h1 h2 => simp at hlen
  | three v1 v2 v3 h1 h2 h3 => simp at hlen
  | alloc cps =>
    by_cases hu : u > DEVCON_CHAR_UCS4_MAX
    · simp only [devcon_char_build]
      rw [if_pos hu]
    · simp only [devcon_char_build, devcon_char_is_null]
      rw [if_neg hu]
      simp only [Bool.false_eq_true, if_false]
      rw [if_pos (by simpa using hlen)]

/-- Folding valid code points through merge keeps the representation. -/
theorem char_rep_foldl (l : List Nat) (acc : devcon_char) (pre : List Nat)
    (hacc : char_rep acc pre) (hval : ∀ u ∈ l, u ≤ DEVCON_CHAR_UCS4_MAX)
    (hlen : pre.length + l.length ≤ 64) :
    char_rep (l.foldl devcon_char_merge acc) (pre ++ l) := by
  induction l generalizing acc pre with
  | nil => simpa using hacc
  | cons u rest ih =>
    have hu : u ≤ DEVCON_CHAR_UCS4_MAX := hval u (by simp)
    have h1 : char_rep (devcon_char_merge acc u) (pre ++ [u]) :=
      build_rep_append acc pre u hacc hu (by simp at hlen; omega)
    simp only [List.foldl_cons]
    have h2 := ih (devcon_char_merge acc u) (pre ++ [u]) h1
      (fun v hv => hval v (by simp [hv]))
      (by simp at hlen ⊢; omega)
    simpa [List.append_assoc] using h2

/-- C3: for every sequence of at most 64 valid UCS-4 code points,
building a `devcon_char` from the null char by merging them one at a time
and then resolving yields exactly the sequence in order with a
terminating zero, and the returned length is the number of merged code
points. -/
theorem C3_char_roundtrip (l : List Nat)
    (hval : ∀ u ∈ l, u ≤ DEVCON_CHAR_UCS4_MAX) (hlen : l.length ≤ 64) :
    devcon_char_resolve (l.foldl devcon_char_merge DEVCON_CHAR_NULL) =
      (l ++ [0], l.length) :=
  resolve_rep _ _ (char_rep_foldl l DEVCON_CHAR_NULL [] char_rep.nil hval
    (by simpa using hlen))

/-- Witness for C3 at a concrete 4-point sequence. -/
theorem C3_char_roundtrip_witness :
    devcon_char_resolve ([0x41, 0x300, 0x301, 0x302].foldl devcon_char_merge
      DEVCON_CHAR_NULL) = ([0x41, 0x300, 0x301, 0x302] ++ [0], 4) :=
  C3_char_roundtrip [0x41, 0x300, 0x301, 0x302] (by decide) (by decide)

/-- C2 (counterexample): with base 0x41 and the 64 distinct valid
combining marks 0x300..0x33f, the 64th merge call already returns the
character unchanged, and resolve reports 64 code points, not 65 - the
soft limit of `devcon_char_build` bounds the total count (base included)
at 64, so only 63 marks are accepted. -/
theorem C2_counterexample :
    (((List.range 64).map (fun i => 0x300 + i)).foldl devcon_char_merge
        (devcon_char_set DEVCON_CHAR_NULL 0x41) =
      ((List.range 63).map (fun i => 0x300 + i)).foldl devcon_char_merge
        (devcon_char_set DEVCON_CHAR_NULL 0x41)) ∧
    ¬ ((devcon_char_resolve (((List.range 64).map (fun i => 0x300 + i)).foldl
        devcon_char_merge (devcon_char_set DEVCON_CHAR_NULL 0x41))).2 = 65) := by
  decide

/-- C2 (amended): starting from a char holding a single valid base code
point, the first 63 merge calls with valid combining marks are all
accepted, so resolve afterwards returns 64 code points (with terminator);
the 64th merge call returns the char unchanged for any appended value,
and the resolve length stays 64. -/
theorem C2_soft_limit (b u : Nat) (ms : List Nat)
    (hb : b ≤ DEVCON_CHAR_UCS4_MAX)
    (hms : ∀ v ∈ ms, v ≤ DEVCON_CHAR_UCS4_MAX) (hlen : ms.length = 63) :
    devcon_char_resolve (ms.foldl devcon_char_merge
        (devcon_char_set DEVCON_CHAR_NULL b)) = ((b :: ms) ++ [0], 64) ∧
    devcon_char_merge (ms.foldl devcon_char_merge
        (devcon_char_set DEVCON_CHAR_NULL b)) u =
      ms.foldl devcon_char_merge (devcon_char_set DEVCON_CHAR_NULL b) := by
  have hbase : char_rep (devcon_char_set DEVCON_CHAR_NULL b) [b] := by
    have h := build_rep_append DEVCON_CHAR_NULL [] b char_rep.nil hb (by simp)
    simpa [devcon_char_set] using h
  have hrep : char_rep (ms.foldl devcon_char_merge
      (devcon_char_set DEVCON_CHAR_NULL b)) ([b] ++ ms) :=
    char_rep_foldl ms _ [b] hbase hms (by simp [hlen])
  constructor
  · have := resolve_rep _ _ hrep
    simpa [hlen] using this
  · exact build_rep_reject _ ([b] ++ ms) u hrep (by simp [hlen])

/-- Witness for the amended C2 at base 0x41 and marks 0x300..0x33e. -/
theorem C2_soft_limit_witness :
    devcon_char_resolve (((List.range 63).map (fun i => 0x300 + i)).foldl
        devcon_char_merge (devcon_char_set DEVCON_CHAR_NULL 0x41)) =
      ((0x41 :: (List.range 63).map (fun i => 0x300 + i)) ++ [0], 64) ∧
    devcon_char_merge (((List.range 63).map (fun i => 0x300 + i)).foldl
        devcon_char_merge (devcon_char_set DEVCON_CHAR_NULL 0x41)) 0x33f =
      ((List.range 63).map (fun i => 0x300 + i)).foldl devcon_char_merge
        (devcon_char_set DEVCON_CHAR_NULL 0x41) :=
  C2_soft_limit 0x41 0x33f ((List.range 63).map (fun i => 0x300 + i))
    (by decide) (by decide) (by decide)

/-- C1 (counterexample): on the width-5 line `A B C D E` with
`attr.protect` only at index 2 and `fill = 5`, the protected erase
`erase(0, 5, default, age 7, keep_protected)` leaves `fill = 2` (the
index of the last protected cell), not 3 as claimed. -/
theorem C1_counterexample :
    (devcon_line_erase c1_line 0 5 none 7 true).fill = 2 ∧
    ¬ ((devcon_line_erase c1_line 0 5 none 7 true).fill = 3) := by
  decide

/-- C1 (amended): the protected erase on that line keeps the protected
cell `C` at index 2 intact, clears every other cell to the null character
with the passed attributes and age, and sets `fill` to 2, the C
code's `max(from, last_protected)` with `from = 0` and
`last_protected = 2`. -/
theorem C1_erase_protect :
    devcon_line_erase c1_line 0 5 none 7 true =
      { width := 5, fill := 2, age := 0,
        cells := [devcon_cell_init DEVCON_CHAR_NULL 0 none 7,
                  devcon_cell_init DEVCON_CHAR_NULL 0 none 7,
                  c1_cell 0x43 true,
                  devcon_cell_init DEVCON_CHAR_NULL 0 none 7,
                  devcon_cell_init DEVCON_CHAR_NULL 0 none 7] } := by
  decide

/-! ## Parser claims -/

/-- C6: feeding the UCS-4 values ESC, left bracket, `1`, `;`, `2`, `H`
into a cleared parser dispatches nothing until the final value; the final
feed yields a CSI sequence with command CUP, two arguments 1 and 2, and
no intermediates. -/
theorem C6_parser_csi_cup :
    ((devcon_parser_feed_list devcon_parser_init
        [0x1b, 0x5b, 0x31, 0x3b, 0x32, 0x48]).2 =
      [DEVCON_SEQ_NONE, DEVCON_SEQ_NONE, DEVCON_SEQ_NONE, DEVCON_SEQ_NONE,
       DEVCON_SEQ_NONE, DEVCON_SEQ_CSI]) ∧
    ((devcon_parser_feed_list devcon_parser_init
        [0x1b, 0x5b, 0x31, 0x3b, 0x32, 0x48]).1.seq.type = DEVCON_SEQ_CSI) ∧
    ((devcon_parser_feed_list devcon_parser_init
        [0x1b, 0x5b, 0x31, 0x3b, 0x32, 0x48]).1.seq.command = devcon_cmd.CUP) ∧
    ((devcon_parser_feed_list devcon_parser_init
        [0x1b, 0x5b, 0x31, 0x3b, 0x32, 0x48]).1.seq.n_args = 2) ∧
    ((devcon_parser_feed_list devcon_parser_init
        [0x1b, 0x5b, 0x31, 0x3b, 0x32, 0x48]).1.seq.args.getD 0 (-1) = 1) ∧
    ((devcon_parser_feed_list devcon_parser_init
        [0x1b, 0x5b, 0x31, 0x3b, 0x32, 0x48]).1.seq.args.getD 1 (-1) = 2) ∧
    ((devcon_parser_feed_list devcon_parser_init
        [0x1b, 0x5b, 0x31, 0x3b, 0x32, 0x48]).1.seq.intermediates = 0) := by
  decide

/-- C7 (counterexample): the parser-assembled CSI sequence
ESC [ 1;2;3;4;5;6 T has final `T`, no intermediates and 6 arguments, yet
the command resolver returns XTERM-IHMT, not SD. -/
theorem C7_counterexample :
    ((devcon_parser_feed_list devcon_parser_init
        [0x1b, 0x5b, 0x31, 0x3b, 0x32, 0x3b, 0x33, 0x3b, 0x34, 0x3b, 0x35,
         0x3b, 0x36, 0x54]).1.seq.terminator = 0x54) ∧
    ((devcon_parser_feed_list devcon_parser_init
        [0x1b, 0x5b, 0x31, 0x3b, 0x32, 0x3b, 0x33, 0x3b, 0x34, 0x3b, 0x35,
         0x3b, 0x36, 0x54]).1.seq.intermediates = 0) ∧
    ((devcon_parser_feed_list devcon_parser_init
        [0x1b, 0x5b, 0x31, 0x3b, 0x32, 0x3b, 0x33, 0x3b, 0x34, 0x3b, 0x35,
         0x3b, 0x36, 0x54]).1.seq.n_args = 6) ∧
    ((devcon_parser_feed_list devcon_parser_init
        [0x1b, 0x5b, 0x31, 0x3b, 0x32, 0x3b, 0x33, 0x3b, 0x34, 0x3b, 0x35,
         0x3b, 0x36, 0x54]).1.seq.command = devcon_cmd.XTERM_IHMT) ∧
    ¬ ((devcon_parser_feed_list devcon_parser_init
        [0x1b, 0x5b, 0x31, 0x3b, 0x32, 0x3b, 0x33, 0x3b, 0x34, 0x3b, 0x35,
         0x3b, 0x36, 0x54]).1.seq.command = devcon_cmd.SD) := by
  decide

/-- C7 (amended): for every assembled CSI sequence with final `T` and no
intermediates, the command resolver returns XTERM-IHMT exactly when the
sequence has at least 5 arguments, and SD for every smaller argument
count. -/
theorem C7_csi_T_resolution (seq : devcon_seq) (ht : seq.terminator = 0x54)
    (hf : seq.intermediates = 0) :
    devcon_parse_host_csi seq =
      (if 5 ≤ seq.n_args then devcon_cmd.XTERM_IHMT else devcon_cmd.SD) := by
  simp [devcon_parse_host_csi, ht, hf, ge_iff_le]

/-- Witness for the amended C7 at a concrete 6-argument sequence. -/
theorem C7_csi_T_resolution_witness :
    devcon_parse_host_csi
      { type := DEVCON_SEQ_CSI, command := devcon_cmd.NONE, terminator := 0x54,
        intermediates := 0, charset := DEVCON_CHARSET_NONE, n_args := 6,
        args := List.replicate DEVCON_PARSER_ARG_MAX (-1), n_st := 0 } =
      devcon_cmd.XTERM_IHMT := by
  have h := C7_csi_T_resolution
    { type := DEVCON_SEQ_CSI, command := devcon_cmd.NONE, terminator := 0x54,
      intermediates := 0, charset := DEVCON_CHARSET_NONE, n_args := 6,
      args := List.replicate DEVCON_PARSER_ARG_MAX (-1), n_st := 0 } rfl rfl
  simpa using h

/-- Every parser action keeps `n_args` within `DEVCON_PARSER_ARG_MAX`. -/
theorem n_args_transition (p : devcon_parser_s) (raw : Nat)
    (s : parser_state) (a : parser_action)
    (h : p.seq.n_args ≤ DEVCON_PARSER_ARG_MAX) :
    ((parser_transition p raw s a).1).seq.n_args ≤ DEVCON_PARSER_ARG_MAX := by
  cases a <;>
    simp only [parser_transition, parser_clear, parser_ignore, parser_print,
      parser_execute, parser_esc, parser_csi, parser_collect, parser_param] <;>
    (repeat' split) <;> simp_all <;> omega

/-- One feed call keeps `n_args` within `DEVCON_PARSER_ARG_MAX`. -/
theorem n_args_feed (p : devcon_parser_s) (raw : Nat)
    (h : p.seq.n_args ≤ DEVCON_PARSER_ARG_MAX) :
    ((devcon_parser_feed p raw).1).seq.n_args ≤ DEVCON_PARSER_ARG_MAX := by
  have hsub : ((parser_feed_to_state p raw).1).seq.n_args ≤ DEVCON_PARSER_ARG_MAX := by
    unfold parser_feed_to_state
    (repeat' split) <;> exact n_args_transition _ _ _ _ h
  unfold devcon_parser_feed
  (repeat' split) <;> first
    | exact n_args_transition _ _ _ _ h
    | exact hsub

/-- C10: for every input stream fed from the cleared initial parser,
`n_args` never exceeds `DEVCON_PARSER_ARG_MAX = 16`: a semicolon or a
digit beyond the sixteenth parameter is discarded by `parser_param`, and
the dispatch in `parser_csi` does not increment past the bound. -/
theorem C10_n_args_bounded (raws : List Nat) :
    ((devcon_parser_feed_list devcon_parser_init raws).1).seq.n_args ≤
      DEVCON_PARSER_ARG_MAX := by
  have main : ∀ (l : List Nat) (p : devcon_parser_s),
      p.seq.n_args ≤ DEVCON_PARSER_ARG_MAX →
      ((devcon_parser_feed_list p l).1).seq.n_args ≤ DEVCON_PARSER_ARG_MAX := by
    intro l
    induction l with
    | nil => intro p h; simpa [devcon_parser_feed_list] using h
    | cons raw rest ih =>
      intro p h
      simp only [devcon_parser_feed_list]
      exact ih _ (n_args_feed p raw h)
  exact main raws devcon_parser_init (by simp [devcon_parser_init, DEVCON_PARSER_ARG_MAX])

/-! ## Line bounds invariant (C4) -/

/-- Range fills keep the buffer length. -/
theorem length_cells_fill_range (cells : List devcon_cell) (s n : Nat)
    (c : devcon_cell) :
    (cells_fill_range cells s n c).length = cells.length := by
  unfold cells_fill_range
  simp
  omega

/-- Folding preserves any invariant preserved by each step. -/
theorem foldl_preserve {α β : Type} (P : α → Prop) (f : α → β → α)
    (hf : ∀ a b, P a → P (f a b)) (l : List β) (a : α) (h : P a) :
    P (l.foldl f a) := by
  induction l generalizing a with
  | nil => simpa using h
  | cons x xs ih => exact ih (f a x) (hf a x h)

/-- `devcon_line_reserve` preserves the line bounds invariant (both on
the success and on the failure path). -/
theorem inv_reserve (l : devcon_line) (w : Nat) (a : Option devcon_attr)
    (g pw : Nat) (ok : Bool) (h : devcon_line_inv l) :
    devcon_line_inv (devcon_line_reserve l w a g pw ok).1 := by
  obtain ⟨h1, h2⟩ := h
  unfold devcon_line_reserve devcon_line_inv
  simp only []
  split_ifs <;> simp_all [length_cells_fill_range] <;> omega

/-- `devcon_line_set_width` preserves the line bounds invariant. -/
theorem inv_set_width (l : devcon_line) (w : Nat) (h : devcon_line_inv l) :
    devcon_line_inv (devcon_line_set_width l w) := by
  obtain ⟨h1, h2⟩ := h
  unfold devcon_line_set_width devcon_line_inv
  constructor <;> simp <;> omega

/-- `devcon_line_place` preserves the line bounds invariant. -/
theorem inv_place (l : devcon_line) (f n : Nat) (hc : devcon_char)
    (hw : Nat) (a : Option devcon_attr) (g : Nat) (h : devcon_line_inv l) :
    devcon_line_inv (devcon_line_place l f n hc hw a g) := by
  obtain ⟨h1, h2⟩ := h
  unfold devcon_line_place devcon_line_inv
  simp only []
  split_ifs <;> simp_all [length_cells_fill_range] <;> omega

/-- `devcon_line_write` preserves the line bounds invariant. -/
theorem inv_write (l : devcon_line) (x : Nat) (ch : devcon_char) (cw : Nat)
    (a : Option devcon_attr) (g : Nat) (ins : Bool) (h : devcon_line_inv l) :
    devcon_line_inv (devcon_line_write l x ch cw a g ins) := by
  have hp := fun len => inv_place l x len ch cw a g h
  obtain ⟨h1, h2⟩ := h
  unfold devcon_line_write
  simp only []
  split_ifs <;> first
    | exact ⟨h1, h2⟩
    | exact hp _
    | (unfold devcon_line_inv
       constructor <;> simp_all [length_cells_fill_range] <;> omega)

/-- `devcon_line_insert` preserves the line bounds invariant. -/
theorem inv_insert (l : devcon_line) (f n : Nat) (a : Option devcon_attr)
    (g : Nat) (h : devcon_line_inv l) :
    devcon_line_inv (devcon_line_insert l f n a g) :=
  inv_place l f n DEVCON_CHAR_NULL 0 a g h

/-- `devcon_line_delete` preserves the line bounds invariant. -/
theorem inv_delete (l : devcon_line) (f n : Nat) (a : Option devcon_attr)
    (g : Nat) (h : devcon_line_inv l) :
    devcon_line_inv (devcon_line_delete l f n a g) := by
  obtain ⟨h1, h2⟩ := h
  unfold devcon_line_delete devcon_line_inv
  simp only []
  split_ifs <;> simp_all [length_cells_fill_range] <;> omega

/-- `devcon_line_erase` preserves the line bounds invariant. -/
theorem erase_step_preserves (f fill : Nat) (a : Option devcon_attr)
    (g : Nat) (kp : Bool) (len : Nat) (acc : List devcon_cell × Nat) (i : Nat)
    (hacc : acc.1.length = len ∧ (acc.2 = 0 ∨ acc.2 < fill)) :
    (devcon_line_erase_step f fill a g kp acc i).1.length = len ∧
      ((devcon_line_erase_step f fill a g kp acc i).2 = 0 ∨
       (devcon_line_erase_step f fill a g kp acc i).2 < fill) := by
  unfold devcon_line_erase_step
  simp only []
  split_ifs <;> simp_all

/-- The erase loop keeps the buffer length and only records protected
positions strictly inside the old fill-region. -/
theorem erase_loop_bounds (l : devcon_line) (f : Nat) (a : Option devcon_attr)
    (g : Nat) (kp : Bool) (num : Nat) :
    ((List.range num).foldl (devcon_line_erase_step f l.fill a g kp)
        (l.cells, 0)).1.length = l.cells.length ∧
    (((List.range num).foldl (devcon_line_erase_step f l.fill a g kp)
        (l.cells, 0)).2 = 0 ∨
     ((List.range num).foldl (devcon_line_erase_step f l.fill a g kp)
        (l.cells, 0)).2 < l.fill) :=
  foldl_preserve
    (fun acc : List devcon_cell × Nat =>
      acc.1.length = l.cells.length ∧ (acc.2 = 0 ∨ acc.2 < l.fill))
    (devcon_line_erase_step f l.fill a g kp)
    (fun acc i hacc => erase_step_preserves f l.fill a g kp l.cells.length acc i hacc)
    (List.range num) (l.cells, 0) ⟨rfl, Or.inl rfl⟩

/-- `devcon_line_erase` preserves the line bounds invariant. -/
theorem inv_erase (l : devcon_line) (f n : Nat) (a : Option devcon_attr)
    (g : Nat) (kp : Bool) (h : devcon_line_inv l) :
    devcon_line_inv (devcon_line_erase l f n a g kp) := by
  obtain ⟨h1, h2⟩ := h
  have ha1 := (erase_loop_bounds l f a g kp (l.width - f)).1
  have ha2 := (erase_loop_bounds l f a g kp n).1
  have hb1 := (erase_loop_bounds l f a g kp (l.width - f)).2
  have hb2 := (erase_loop_bounds l f a g kp n).2
  unfold devcon_line_erase devcon_line_inv
  simp only []
  rcases hb1 with hb1 | hb1 <;> rcases hb2 with hb2 | hb2 <;>
    split_ifs <;> constructor <;> simp_all <;> omega

/-- `devcon_line_reset` preserves the line bounds invariant. -/
theorem inv_reset (l : devcon_line) (a : Option devcon_attr) (g : Nat)
    (h : devcon_line_inv l) : devcon_line_inv (devcon_line_reset l a g) :=
  inv_erase l 0 l.width a g false h

/-- `devcon_line_append` preserves the line bounds invariant. -/
theorem inv_append (l : devcon_line) (x u g : Nat) (h : devcon_line_inv l) :
    devcon_line_inv (devcon_line_append l x u g) := by
  obtain ⟨h1, h2⟩ := h
  unfold devcon_line_append devcon_line_inv
  split <;> simp_all

/-- C4: the invariant `0 ≤ fill ≤ width ≤ n_cells` holds after every
sequence of line operations applied to a line satisfying it (freshly
allocated lines, with everything zero, satisfy it). -/
theorem C4_line_bounds (l : devcon_line) (ops : List devcon_line_op)
    (h : devcon_line_inv l) :
    devcon_line_inv (ops.foldl devcon_line_apply l) := by
  apply foldl_preserve devcon_line_inv devcon_line_apply _ ops l h
  intro line op hline
  cases op with
  | reserve w a g pw ok => exact inv_reserve line w a g pw ok hline
  | set_width w => exact inv_set_width line w hline
  | write x ch cw a g ins => exact inv_write line x ch cw a g ins hline
  | place f n hc hw a g => exact inv_place line f n hc hw a g hline
  | insert f n a g => exact inv_insert line f n a g hline
  | delete f n a g => exact inv_delete line f n a g hline
  | erase f n a g kp => exact inv_erase line f n a g kp hline
  | reset a g => exact inv_reset line a g hline
  | append x u g => exact inv_append line x u g hline

/-- Witness for C4: a concrete operation sequence on the `A B C D E`
line. -/
theorem C4_line_bounds_witness :
    devcon_line_inv ([devcon_line_op.reserve 8 none 1 5 true,
        devcon_line_op.set_width 7,
        devcon_line_op.write 1 (devcon_char_pack1 0x58) 1 none 2 true,
        devcon_line_op.delete 0 2 none 3,
        devcon_line_op.erase 0 7 none 4 true,
        devcon_line_op.reset none 5,
        devcon_line_op.append 0 0x300 6].foldl devcon_line_apply c1_line) :=
  C4_line_bounds c1_line _ (by constructor <;> decide)

/-! ## History pop on reservation failure (C8) -/

/-- Clearing from `start` on keeps the first `start` entries. -/
theorem take_cells_fill_range (cells : List devcon_cell) (start n : Nat)
    (c : devcon_cell) (hs : start ≤ cells.length) :
    (cells_fill_range cells start n c).take start = cells.take start := by
  unfold cells_fill_range
  rw [List.take_append_of_le_length (by simp; omega),
      List.take_append_of_le_length (by simp; omega), List.take_take]
  simp

/-- Reservation with a succeeding allocator always succeeds. -/
theorem reserve_alloc_ok (l : devcon_line) (w : Nat) (a : Option devcon_attr)
    (g pw : Nat) : (devcon_line_reserve l w a g pw true).2 = true := by
  unfold devcon_line_reserve
  simp only []
  split_ifs <;> rfl

/-- A failing reservation implies a growth was needed. -/
theorem reserve_fail_grow (l : devcon_line) (w : Nat) (a : Option devcon_attr)
    (g pw : Nat)
    (hfail : (devcon_line_reserve l w a g pw false).2 = false) :
    w > l.cells.length := by
  unfold devcon_line_reserve at hfail
  simp only [] at hfail
  split_ifs at hfail <;> simp_all

/-- The line state after a failed reservation: only the clearing outside
the protected area has happened. -/
theorem reserve_fail_result (l : devcon_line) (w : Nat)
    (a : Option devcon_attr) (g pw : Nat) (hg : w > l.cells.length) :
    (devcon_line_reserve l w a g pw false).1 =
      { l with cells :=
          (if min l.cells.length w > pw then
            cells_fill_range l.cells pw (min l.cells.length w - pw)
              (devcon_cell_init DEVCON_CHAR_NULL 0 a g)
          else l.cells) } := by
  unfold devcon_line_reserve
  simp only []
  rw [if_pos hg]
  split_ifs <;> simp_all

/-- C8: on a non-empty history, when reserving the most recently pushed
line to `new_width` fails, `devcon_history_pop` returns `none` and the
history keeps the line: it remains linked at the tail (with its width,
fill, visible cells and allocation size untouched) and `n_lines` is not
decremented; when the reservation succeeds, pop detaches the tail line
and returns it. -/
theorem C8_history_pop (h : devcon_history) (w : Nat)
    (a : Option devcon_attr) (g : Nat) (ok : Bool) (hne : h.lines ≠ []) :
    ((devcon_line_reserve (h.lines.getLast hne) w a g
        (h.lines.getLast hne).width ok).2 = false →
      devcon_history_pop h w a g ok =
        (none, { h with lines := h.lines.dropLast ++
          [(devcon_line_reserve (h.lines.getLast hne) w a g
              (h.lines.getLast hne).width ok).1] }) ∧
      ({ h with lines := h.lines.dropLast ++
          [(devcon_line_reserve (h.lines.getLast hne) w a g
              (h.lines.getLast hne).width ok).1] } : devcon_history).n_lines =
        h.n_lines ∧
      (h.lines.dropLast ++
          [(devcon_line_reserve (h.lines.getLast hne) w a g
              (h.lines.getLast hne).width ok).1]).length = h.lines.length ∧
      (devcon_line_reserve (h.lines.getLast hne) w a g
          (h.lines.getLast hne).width ok).1.width = (h.lines.getLast hne).width ∧
      (devcon_line_reserve (h.lines.getLast hne) w a g
          (h.lines.getLast hne).width ok).1.fill = (h.lines.getLast hne).fill ∧
      (devcon_line_reserve (h.lines.getLast hne) w a g
          (h.lines.getLast hne).width ok).1.cells.length =
        (h.lines.getLast hne).cells.length ∧
      (devcon_line_reserve (h.lines.getLast hne) w a g
          (h.lines.getLast hne).width ok).1.cells.take (h.lines.getLast hne).width =
        (h.lines.getLast hne).cells.take (h.lines.getLast hne).width) ∧
    ((devcon_line_reserve (h.lines.getLast hne) w a g
        (h.lines.getLast hne).width ok).2 = true →
      devcon_history_pop h w a g ok =
        (some (devcon_line_set_width
          (devcon_line_reserve (h.lines.getLast hne) w a g
            (h.lines.getLast hne).width ok).1 w),
         { h with lines := h.lines.dropLast, n_lines := h.n_lines - 1 })) := by
  set line := h.lines.getLast hne with hline
  have hlast : h.lines.getLast? = some line := by
    rw [hline]; exact List.getLast?_eq_getLast h.lines hne
  constructor
  · intro hfail
    have hpop : devcon_history_pop h w a g ok =
        (none, { h with lines := h.lines.dropLast ++
          [(devcon_line_reserve line w a g line.width ok).1] }) := by
      unfold devcon_history_pop
      rw [hlast]
      simp only [hfail, Bool.false_eq_true, if_false]
    have hp := List.length_pos.mpr hne
    have hlen2 : (h.lines.dropLast ++
        [(devcon_line_reserve line w a g line.width ok).1]).length =
        h.lines.length := by
      simp
      omega
    -- on the failure path only cells beyond the protected width are
    -- touched: width, fill and the visible cells survive
    have hok : ok = false := by
      cases ok
      · rfl
      · rw [reserve_alloc_ok] at hfail; simp at hfail
    subst hok
    have hg := reserve_fail_grow line w a g line.width hfail
    have hres := reserve_fail_result line w a g line.width hg
    have hprops : (devcon_line_reserve line w a g line.width false).1.width =
          line.width ∧
        (devcon_line_reserve line w a g line.width false).1.fill = line.fill ∧
        (devcon_line_reserve line w a g line.width false).1.cells.length =
          line.cells.length ∧
        (devcon_line_reserve line w a g line.width false).1.cells.take line.width =
          line.cells.take line.width := by
      rw [hres]
      refine ⟨rfl, rfl, ?_, ?_⟩
      · split_ifs <;> simp [length_cells_fill_range]
      · split_ifs with hmin
        · exact take_cells_fill_range _ _ _ _ (by omega)
        · rfl
    exact ⟨hpop, rfl, hlen2, hprops.1, hprops.2.1, hprops.2.2.1, hprops.2.2.2⟩
  · intro hsucc
    unfold devcon_history_pop
    rw [hlast]
    simp only [hsucc, if_true]

/-- Witness for C8: a one-line history whose line has 2 cells, popped to
width 3 with the allocation failing, and popped to width 3 with the
allocation succeeding. -/
theorem C8_history_pop_witness :
    devcon_history_pop c8_history 3 none 9 false =
      (none, { c8_history with lines :=
        [(devcon_line_reserve (c5_line 0x41 0x42) 3 none 9 2 false).1] }) ∧
    devcon_history_pop c8_history 3 none 9 true =
      (some (devcon_line_set_width
        (devcon_line_reserve (c5_line 0x41 0x42) 3 none 9 2 true).1 3),
       { c8_history with lines := [], n_lines := 0 }) := by
  have hne : c8_history.lines ≠ [] := by decide
  have h1 := (C8_history_pop c8_history 3 none 9 false hne).1 (by rfl)
  have h2 := (C8_history_pop c8_history 3 none 9 true hne).2 (by rfl)
  constructor
  · have := h1.1
    simpa using this
  · simpa using h2

/-! ## UTF-8 encode/decode round trip (C9) -/

/-- Conjugation of a mask by a shift: masking with `m <<< k` extracts the
same bits as shifting down, masking with `m` and shifting back up. -/
theorem and_mask_shift (x m k : Nat) :
    x &&& (m <<< k) = ((x >>> k) &&& m) <<< k := by
  apply Nat.eq_of_testBit_eq
  intro i
  simp only [Nat.testBit_and, Nat.testBit_shiftLeft, Nat.testBit_shiftRight]
  by_cases h : k ≤ i
  · simp [h, Nat.add_sub_cancel' h, Bool.and_left_comm, Bool.and_comm]
  · simp [h]

/-- The `0xE0` lead-byte mask in arithmetic form. -/
theorem and_e0 (x : Nat) : x &&& 0xE0 = x / 32 % 8 * 32 := by
  rw [show (0xE0 : Nat) = 7 <<< 5 from by decide, and_mask_shift,
      Nat.shiftRight_eq_div_pow, show (7 : Nat) = 2 ^ 3 - 1 from by decide,
      Nat.and_pow_two_sub_one_eq_mod, Nat.shiftLeft_eq]

/-- The `0xF0` lead-byte mask in arithmetic form. -/
theorem and_f0 (x : Nat) : x &&& 0xF0 = x / 16 % 16 * 16 := by
  rw [show (0xF0 : Nat) = 15 <<< 4 from by decide, and_mask_shift,
      Nat.shiftRight_eq_div_pow, show (15 : Nat) = 2 ^ 4 - 1 from by decide,
      Nat.and_pow_two_sub_one_eq_mod, Nat.shiftLeft_eq]

/-- The `0xF8` lead-byte mask in arithmetic form. -/
theorem and_f8 (x : Nat) : x &&& 0xF8 = x / 8 % 32 * 8 := by
  rw [show (0xF8 : Nat) = 31 <<< 3 from by decide, and_mask_shift,
      Nat.shiftRight_eq_div_pow, show (31 : Nat) = 2 ^ 5 - 1 from by decide,
      Nat.and_pow_two_sub_one_eq_mod, Nat.shiftLeft_eq]

/-- The `0xC0` continuation mask in arithmetic form. -/
theorem and_c0 (x : Nat) : x &&& 0xC0 = x / 64 % 4 * 64 := by
  rw [show (0xC0 : Nat) = 3 <<< 6 from by decide, and_mask_shift,
      Nat.shiftRight_eq_div_pow, show (3 : Nat) = 2 ^ 2 - 1 from by decide,
      Nat.and_pow_two_sub_one_eq_mod, Nat.shiftLeft_eq]

/-- Low 7-bit mask. -/
theorem and_7f (x : Nat) : x &&& 0x7F = x % 128 := by
  rw [show (0x7F : Nat) = 2 ^ 7 - 1 from by decide,
      Nat.and_pow_two_sub_one_eq_mod]

/-- Low 6-bit mask. -/
theorem and_3f (x : Nat) : x &&& 0x3F = x % 64 := by
  rw [show (0x3F : Nat) = 2 ^ 6 - 1 from by decide,
      Nat.and_pow_two_sub_one_eq_mod]

/-- Low 5-bit mask. -/
theorem and_1f (x : Nat) : x &&& 0x1F = x % 32 := by
  rw [show (0x1F : Nat) = 2 ^ 5 - 1 from by decide,
      Nat.and_pow_two_sub_one_eq_mod]

/-- Low 4-bit mask. -/
theorem and_0f (x : Nat) : x &&& 0x0F = x % 16 := by
  rw [show (0x0F : Nat) = 2 ^ 4 - 1 from by decide,
      Nat.and_pow_two_sub_one_eq_mod]

/-- Low 3-bit mask. -/
theorem and_07 (x : Nat) : x &&& 0x07 = x % 8 := by
  rw [show (0x07 : Nat) = 2 ^ 3 - 1 from by decide,
      Nat.and_pow_two_sub_one_eq_mod]

/-- Disjoint or as addition: a multiple of `2 ^ k` or-ed with a value
below `2 ^ k`. -/
theorem or_mul_add (w q k : Nat) (h : q < 2 ^ k) :
    (2 ^ k * w) ||| q = 2 ^ k * w + q :=
  (Nat.mul_add_lt_is_or h w).symm

/-- Or-ing the 2-byte lead marker with a 5-bit payload. -/
theorem or_c0 (q : Nat) (h : q < 64) : 0xC0 ||| q = 0xC0 + q := by
  rw [show (0xC0 : Nat) = 2 ^ 6 * 3 from by decide, or_mul_add 3 q 6 (by omega)]

/-- Or-ing the continuation marker with a 6-bit payload. -/
theorem or_80 (q : Nat) (h : q < 64) : 0x80 ||| q = 0x80 + q := by
  rw [show (0x80 : Nat) = 2 ^ 6 * 2 from by decide, or_mul_add 2 q 6 (by omega)]

/-- Or-ing the 3-byte lead marker with a 4-bit payload. -/
theorem or_e0 (q : Nat) (h : q < 32) : 0xE0 ||| q = 0xE0 + q := by
  rw [show (0xE0 : Nat) = 2 ^ 5 * 7 from by decide, or_mul_add 7 q 5 (by omega)]

/-- Or-ing the 4-byte lead marker with a 3-bit payload. -/
theorem or_f0 (q : Nat) (h : q < 16) : 0xF0 ||| q = 0xF0 + q := by
  rw [show (0xF0 : Nat) = 2 ^ 4 * 15 from by decide, or_mul_add 15 q 4 (by omega)]

/-- Round trip for a 1-byte encoding. -/
theorem c9_one (g : Nat) (hhi : g < 0x80) :
    (devcon_utf8_decode_list devcon_utf8_null (devcon_utf8_encode g)).2 =
      [[g]] := by
  have e1 : (1 <<< 7 : Nat) = 128 := by decide
  have henc : devcon_utf8_encode g = [g] := by
    unfold devcon_utf8_encode
    simp only [e1]
    rw [if_pos (by omega), and_7f]
    simp only [List.cons.injEq, and_true]
    omega
  have hmod : g % 256 = g := by omega
  have hm1 : ¬ (g &&& 0xE0 = 0xC0) := by rw [and_e0]; omega
  have hm2 : ¬ (g &&& 0xF0 = 0xE0) := by rw [and_f0]; omega
  have hm3 : ¬ (g &&& 0xF8 = 0xF0) := by rw [and_f8]; omega
  rw [henc]
  simp only [devcon_utf8_decode_list, devcon_utf8_decode, devcon_utf8_finish,
    devcon_utf8_null, hmod, hm1, hm2, hm3]
  simp

/-- Round trip for a 2-byte encoding. -/
theorem c9_two (g : Nat) (hlo : 0x80 ≤ g) (hhi : g < 0x800) :
    (devcon_utf8_decode_list devcon_utf8_null (devcon_utf8_encode g)).2 =
      [[], [g]] := by
  have e1 : (1 <<< 7 : Nat) = 128 := by decide
  have e2 : (1 <<< 11 : Nat) = 2048 := by decide
  have hq : (g >>> 6) &&& 0x1F = g / 64 := by
    rw [Nat.shiftRight_eq_div_pow, and_1f]
    omega
  have henc : devcon_utf8_encode g = [192 + g / 64, 128 + g % 64] := by
    unfold devcon_utf8_encode
    simp only [e1, e2]
    rw [if_neg (by omega), if_pos (by omega), hq, and_3f,
        or_c0 _ (by omega), or_80 _ (by omega)]
  have hmod0 : (192 + g / 64) % 256 = 192 + g / 64 := by omega
  have hmod1 : (128 + g % 64) % 256 = 128 + g % 64 := by omega
  have hm1 : (192 + g / 64) &&& 0xE0 = 0xC0 := by rw [and_e0]; omega
  have ht0 : (192 + g / 64) &&& 0x1F = g / 64 := by rw [and_1f]; omega
  have hc1 : (128 + g % 64) &&& 0xC0 = 0x80 := by rw [and_c0]; omega
  have ht1 : (128 + g % 64) &&& 0x3F = g % 64 := by rw [and_3f]; omega
  have hsum : (g / 64) <<< 6 ||| g % 64 = g := by
    rw [Nat.shiftLeft_eq, show g / 64 * 2 ^ 6 = 2 ^ 6 * (g / 64) from by ring,
        or_mul_add _ _ _ (by omega)]
    omega
  rw [henc]
  simp only [devcon_utf8_decode_list, devcon_utf8_decode, devcon_utf8_finish,
    devcon_utf8_null, hmod0, hmod1, hm1, ht0, hc1, ht1]
  simp [hsum]

/-- Round trip for a 3-byte encoding. -/
theorem c9_three (g : Nat) (hlo : 0x800 ≤ g) (hhi : g < 0x10000) :
    (devcon_utf8_decode_list devcon_utf8_null (devcon_utf8_encode g)).2 =
      [[], [], [g]] := by
  have e1 : (1 <<< 7 : Nat) = 128 := by decide
  have e2 : (1 <<< 11 : Nat) = 2048 := by decide
  have e3 : (1 <<< 16 : Nat) = 65536 := by decide
  have hq2 : (g >>> 12) &&& 0x0F = g / 4096 := by
    rw [Nat.shiftRight_eq_div_pow, and_0f]
    omega
  have hq1 : (g >>> 6) &&& 0x3F = g / 64 % 64 := by
    rw [Nat.shiftRight_eq_div_pow, and_3f]
  have henc : devcon_utf8_encode g =
      [224 + g / 4096, 128 + g / 64 % 64, 128 + g % 64] := by
    unfold devcon_utf8_encode
    simp only [e1, e2, e3]
    rw [if_neg (by omega), if_neg (by omega), if_pos (by omega), hq2, hq1,
        and_3f, or_e0 _ (by omega), or_80 _ (by omega), or_80 _ (by omega)]
  have hmod0 : (224 + g / 4096) % 256 = 224 + g / 4096 := by omega
  have hmod1 : (128 + g / 64 % 64) % 256 = 128 + g / 64 % 64 := by omega
  have hmod2 : (128 + g % 64) % 256 = 128 + g % 64 := by omega
  have hmA : (224 + g / 4096) &&& 0xE0 = 0xE0 := by rw [and_e0]; omega
  have hmB : (224 + g / 4096) &&& 0xF0 = 0xE0 := by rw [and_f0]; omega
  have ht0 : (224 + g / 4096) &&& 0x0F = g / 4096 := by rw [and_0f]; omega
  have hc1 : (128 + g / 64 % 64) &&& 0xC0 = 0x80 := by rw [and_c0]; omega
  have ht1 : (128 + g / 64 % 64) &&& 0x3F = g / 64 % 64 := by
    rw [and_3f]; omega
  have hc2 : (128 + g % 64) &&& 0xC0 = 0x80 := by rw [and_c0]; omega
  have ht2 : (128 + g % 64) &&& 0x3F = g % 64 := by rw [and_3f]; omega
  have hsum : (g / 4096) <<< 12 ||| (g / 64 % 64) <<< 6 ||| g % 64 = g := by
    rw [Nat.shiftLeft_eq, Nat.shiftLeft_eq,
        show g / 4096 * 2 ^ 12 = 2 ^ 12 * (g / 4096) from by ring,
        or_mul_add _ _ _ (by omega),
        show 2 ^ 12 * (g / 4096) + g / 64 % 64 * 2 ^ 6 =
          2 ^ 6 * (2 ^ 6 * (g / 4096) + g / 64 % 64) from by ring,
        or_mul_add _ _ _ (by omega)]
    omega
  rw [henc]
  simp only [devcon_utf8_decode_list, devcon_utf8_decode, devcon_utf8_finish,
    devcon_utf8_null, hmod0, hmod1, hmod2, hmA, hmB, ht0, hc1, ht1, hc2, ht2]
  simp [hsum]

/-- Round trip for a 4-byte encoding. -/
theorem c9_four (g : Nat) (hlo : 0x10000 ≤ g) (hhi : g < 0x200000) :
    (devcon_utf8_decode_list devcon_utf8_null (devcon_utf8_encode g)).2 =
      [[], [], [], [g]] := by
  have e1 : (1 <<< 7 : Nat) = 128 := by decide
  have e2 : (1 <<< 11 : Nat) = 2048 := by decide
  have e3 : (1 <<< 16 : Nat) = 65536 := by decide
  have e4 : (1 <<< 21 : Nat) = 2097152 := by decide
  have hq3 : (g >>> 18) &&& 0x07 = g / 262144 := by
    rw [Nat.shiftRight_eq_div_pow, and_07]
    omega
  have hq2 : (g >>> 12) &&& 0x3F = g / 4096 % 64 := by
    rw [Nat.shiftRight_eq_div_pow, and_3f]
  have hq1 : (g >>> 6) &&& 0x3F = g / 64 % 64 := by
    rw [Nat.shiftRight_eq_div_pow, and_3f]
  have henc : devcon_utf8_encode g =
      [240 + g / 262144, 128 + g / 4096 % 64, 128 + g / 64 % 64,
       128 + g % 64] := by
    unfold devcon_utf8_encode
    simp only [e1, e2, e3, e4]
    rw [if_neg (by omega), if_neg (by omega), if_neg (by omega),
        if_pos (by omega), hq3, hq2, hq1, and_3f, or_f0 _ (by omega),
        or_80 _ (by omega), or_80 _ (by omega), or_80 _ (by omega)]
  have hmod0 : (240 + g / 262144) % 256 = 240 + g / 262144 := by omega
  have hmod1 : (128 + g / 4096 % 64) % 256 = 128 + g / 4096 % 64 := by omega
  have hmod2 : (128 + g / 64 % 64) % 256 = 128 + g / 64 % 64 := by omega
  have hmod3 : (128 + g % 64) % 256 = 128 + g % 64 := by omega
  have hmA : (240 + g / 262144) &&& 0xE0 = 0xE0 := by rw [and_e0]; omega
  have hmB : (240 + g / 262144) &&& 0xF0 = 0xF0 := by rw [and_f0]; omega
  have hmC : (240 + g / 262144) &&& 0xF8 = 0xF0 := by rw [and_f8]; omega
  have ht0 : (240 + g / 262144) &&& 0x07 = g / 262144 := by
    rw [and_07]; omega
  have hc1 : (128 + g / 4096 % 64) &&& 0xC0 = 0x80 := by rw [and_c0]; omega
  have ht1 : (128 + g / 4096 % 64) &&& 0x3F = g / 4096 % 64 := by
    rw [and_3f]; omega
  have hc2 : (128 + g / 64 % 64) &&& 0xC0 = 0x80 := by rw [and_c0]; omega
  have ht2 : (128 + g / 64 % 64) &&& 0x3F = g / 64 % 64 := by
    rw [and_3f]; omega
  have hc3 : (128 + g % 64) &&& 0xC0 = 0x80 := by rw [and_c0]; omega
  have ht3 : (128 + g % 64) &&& 0x3F = g % 64 := by rw [and_3f]; omega
  have hsum : (g / 262144) <<< 18 ||| (g / 4096 % 64) <<< 12 |||
      (g / 64 % 64) <<< 6 ||| g % 64 = g := by
    rw [Nat.shiftLeft_eq, Nat.shiftLeft_eq, Nat.shiftLeft_eq,
        show g / 262144 * 2 ^ 18 = 2 ^ 18 * (g / 262144) from by ring,
        or_mul_add _ _ _ (by omega),
        show 2 ^ 18 * (g / 262144) + g / 4096 % 64 * 2 ^ 12 =
          2 ^ 12 * (2 ^ 6 * (g / 262144) + g / 4096 % 64) from by ring,
        or_mul_add _ _ _ (by omega),
        show 2 ^ 12 * (2 ^ 6 * (g / 262144) + g / 4096 % 64) +
            g / 64 % 64 * 2 ^ 6 =
          2 ^ 6 * (2 ^ 6 * (2 ^ 6 * (g / 262144) + g / 4096 % 64) +
            g / 64 % 64) from by ring,
        or_mul_add _ _ _ (by omega)]
    omega
  rw [henc]
  simp only [devcon_utf8_decode_list, devcon_utf8_decode, devcon_utf8_finish,
    devcon_utf8_null, hmod0, hmod1, hmod2, hmod3, hmA, hmB, hmC, ht0, hc1,
    ht1, hc2, ht2, hc3, ht3]
  simp [hsum]

/-- C9: for every UCS-4 value g < 2^21, encoding g with
`devcon_utf8_encode` and feeding the bytes one at a time into a freshly
zeroed decoder emits nothing on the non-final bytes and exactly the
single code point g on the final byte. -/
theorem C9_utf8_roundtrip (g : Nat) (h : g < 2 ^ 21) :
    (devcon_utf8_decode_list devcon_utf8_null (devcon_utf8_encode g)).2 =
      List.replicate ((devcon_utf8_encode g).length - 1) [] ++ [[g]] := by
  rcases Nat.lt_or_ge g 0x80 with h1 | h1
  · have hl : (devcon_utf8_encode g).length = 1 := by
      unfold devcon_utf8_encode
      rw [if_pos (by omega)]
      rfl
    rw [c9_one g h1, hl]
    rfl
  rcases Nat.lt_or_ge g 0x800 with h2 | h2
  · have hl : (devcon_utf8_encode g).length = 2 := by
      unfold devcon_utf8_encode
      rw [if_neg (by omega), if_pos (by omega)]
      rfl
    rw [c9_two g h1 h2, hl]
    rfl
  rcases Nat.lt_or_ge g 0x10000 with h3 | h3
  · have hl : (devcon_utf8_encode g).length = 3 := by
      unfold devcon_utf8_encode
      rw [if_neg (by omega), if_neg (by omega), if_pos (by omega)]
      rfl
    rw [c9_three g h2 h3, hl]
    rfl
  have hl : (devcon_utf8_encode g).length = 4 := by
    unfold devcon_utf8_encode
    rw [if_neg (by omega), if_neg (by omega), if_neg (by omega),
        if_pos (by omega)]
    rfl
  rw [c9_four g h3 (by omega), hl]
  rfl

/-! ## Scroll-up / scroll-down symmetry (C5) -/

/-- Reserving a well-formed line to its own width with the full width
protected succeeds and leaves the line unchanged. -/
theorem reserve_wf_id (l : devcon_line) (attr : Option devcon_attr)
    (age : Nat) (hfw : l.fill ≤ l.width) (hwc : l.width ≤ l.cells.length) :
    devcon_line_reserve l l.width attr age l.width true = (l, true) := by
  unfold devcon_line_reserve
  simp only []
  split_ifs <;> first | (exfalso; omega) | (rw [Nat.min_eq_left hfw])

/-- Setting the width of a well-formed line to its own width is the
identity. -/
theorem set_width_wf_id (l : devcon_line) (hfw : l.fill ≤ l.width)
    (hwc : l.width ≤ l.cells.length) :
    devcon_line_set_width l l.width = l := by
  unfold devcon_line_set_width
  simp only []
  rw [Nat.min_eq_left hwc, Nat.min_eq_left hfw]

/-- Popping a well-formed tail line at its own width detaches it
unchanged and decrements the count. -/
theorem history_pop_wf (h : devcon_history) (rest : List devcon_line)
    (l : devcon_line) (W : Nat) (attr : Option devcon_attr) (age : Nat)
    (hl : h.lines = rest ++ [l]) (hW : l.width = W)
    (hfw : l.fill ≤ l.width) (hwc : l.width ≤ l.cells.length) :
    devcon_history_pop h W attr age true =
      (some l, { h with lines := rest, n_lines := h.n_lines - 1 }) := by
  subst hW
  unfold devcon_history_pop
  rw [hl, List.getLast?_concat]
  simp only [reserve_wf_id l attr age hfw hwc, List.dropLast_concat,
    set_width_wf_id l hfw hwc]
  simp

/-- Folding `devcon_history_push` over a batch that fits under
`max_lines` keeps the batch intact as the tail suffix of the history
(head trimming only eats older lines), preserving the length
invariant and the capacity. -/
theorem history_push_fold (ps : List devcon_line) :
    ∀ (h : devcon_history) (rest done : List devcon_line),
      h.n_lines = h.lines.length →
      h.lines = rest ++ done →
      done.length + ps.length ≤ h.max_lines →
      ∃ rest2,
        (ps.foldl devcon_history_push h).lines = rest2 ++ (done ++ ps) ∧
        (ps.foldl devcon_history_push h).n_lines =
          (ps.foldl devcon_history_push h).lines.length ∧
        (ps.foldl devcon_history_push h).max_lines = h.max_lines := by
  induction ps with
  | nil =>
    intro h rest done hwf hlines hcap
    exact ⟨rest, by simpa using hlines, hwf, rfl⟩
  | cons p ps ih =>
    intro h rest done hwf hlines hcap
    rw [List.foldl_cons]
    have hcap1 : (done ++ [p]).length + ps.length ≤ h.max_lines := by
      simp only [List.length_append, List.length_cons, List.length_nil]
      simp only [List.length_cons] at hcap
      omega
    by_cases hfull : h.n_lines ≥ h.max_lines
    · have hlen : h.lines.length = rest.length + done.length := by
        rw [hlines]
        simp
      have hrest : rest ≠ [] := by
        intro he
        subst he
        simp only [List.length_nil] at hlen
        simp only [List.length_cons] at hcap
        omega
      obtain ⟨r0, rest', hr⟩ := List.exists_cons_of_ne_nil hrest
      have hpush : devcon_history_push h p =
          { h with lines := rest' ++ (done ++ [p]) } := by
        unfold devcon_history_push
        simp only []
        rw [if_pos hfull, hlines, hr]
        simp
      rw [hpush]
      have hwf1 : h.n_lines = (rest' ++ (done ++ [p])).length := by
        rw [hwf, hlines, hr]
        simp only [List.length_append, List.length_cons, List.length_nil]
        omega
      obtain ⟨rest2, e1, e2, e3⟩ :=
        ih { h with lines := rest' ++ (done ++ [p]) } rest' (done ++ [p])
          hwf1 rfl hcap1
      refine ⟨rest2, ?_, e2, e3⟩
      rw [e1]
      simp
    · have hpush : devcon_history_push h p =
          { h with lines := rest ++ (done ++ [p]),
                   n_lines := h.n_lines + 1 } := by
        unfold devcon_history_push
        simp only []
        rw [if_neg hfull, hlines]
        simp
      rw [hpush]
      have hwf1 : h.n_lines + 1 = (rest ++ (done ++ [p])).length := by
        rw [hwf, hlines]
        simp only [List.length_append, List.length_cons, List.length_nil]
        omega
      obtain ⟨rest2, e1, e2, e3⟩ :=
        ih (devcon_history.mk (rest ++ (done ++ [p])) (h.n_lines + 1)
          h.max_lines) rest (done ++ [p]) hwf1 rfl hcap1
      refine ⟨rest2, ?_, e2, e3⟩
      rw [e1]
      simp

/-- The pull loop of `devcon_page_down()` on a history whose tail suffix
consists of well-formed width-`W` lines pops exactly that suffix, in
order, and removes it from the history. -/
theorem down_loop_pops (W : Nat) (attr : Option devcon_attr) (age : Nat)
    (ds : List devcon_line) :
    ∀ (qs rest : List devcon_line) (h : devcon_history),
      ds.length = qs.length →
      h.lines = rest ++ qs →
      (∀ l ∈ qs, l.width = W ∧ l.fill ≤ l.width ∧
        l.width ≤ l.cells.length) →
      devcon_page_down_loop W attr age ds (some h) =
        (qs, some { h with lines := rest,
                           n_lines := h.n_lines - qs.length }) := by
  induction ds with
  | nil =>
    intro qs rest h hlen hlines hwf
    have hq : qs = [] := List.eq_nil_of_length_eq_zero (by simpa using hlen.symm)
    subst hq
    simp only [List.append_nil] at hlines
    subst hlines
    rfl
  | cons d ds ih =>
    intro qs rest h hlen hlines hwf
    rcases List.eq_nil_or_concat qs with hq | ⟨qs2, q, hq⟩
    · subst hq
      simp at hlen
    rw [List.concat_eq_append] at hq
    subst hq
    have hqwf := hwf q (by simp)
    have hpop := history_pop_wf h (rest ++ qs2) q W attr age
      (by rw [hlines, List.append_assoc]) hqwf.1 hqwf.2.1 hqwf.2.2
    have hlen2 : ds.length = qs2.length := by
      simp only [List.length_cons, List.length_append, List.length_nil] at hlen
      omega
    have hrec := ih qs2 rest
      { h with lines := rest ++ qs2, n_lines := h.n_lines - 1 } hlen2 rfl
      (fun l hl => hwf l (List.mem_append_left _ hl))
    have harith : h.n_lines - 1 - qs2.length = h.n_lines - (qs2.length + 1) := by
      omega
    simp only [devcon_page_down_loop]
    rw [hpop]
    simp only []
    rw [hrec]
    simp only [List.length_append, List.length_cons, List.length_nil, harith]

/-- C5: scrolling the region up by n lines into a history with room for
them and then scrolling down by n with that history restores every
visible line of the page (up to the renderer age stamp, which
`devcon_line_view` excludes). -/
theorem C5_scroll_symmetry (page : devcon_page) (h : devcon_history)
    (n : Nat) (attr : Option devcon_attr) (age : Nat)
    (hn1 : 1 ≤ n) (hn2 : n ≤ page.scroll_num)
    (hreg : page.scroll_idx + page.scroll_num ≤ page.lines.length)
    (hwf : ∀ l ∈ (page.lines.drop page.scroll_idx).take page.scroll_num,
      l.width = page.width ∧ l.fill ≤ l.width ∧ l.width ≤ l.cells.length)
    (hh : h.n_lines = h.lines.length)
    (hcap : n ≤ h.max_lines) :
    ((devcon_page_scroll_down
        (devcon_page_scroll_up page n attr age (some h)).1 n attr age
        (devcon_page_scroll_up page n attr age (some h)).2).1).lines.map
      devcon_line_view = page.lines.map devcon_line_view := by
  obtain ⟨pa, L, W, ph, si, sn, sf⟩ := page
  have hn2 : n ≤ sn := hn2
  have hreg : si + sn ≤ L.length := hreg
  have hwf : ∀ l ∈ (L.drop si).take sn,
      l.width = W ∧ l.fill ≤ l.width ∧ l.width ≤ l.cells.length := hwf
  have hnum : min n sn = n := Nat.min_eq_left hn2
  have hWW : max W W = W := Nat.max_self W
  have hup : devcon_page_scroll_up ⟨pa, L, W, ph, si, sn, sf⟩ n attr age
      (some h) =
      (⟨pa,
        L.take si ++
          ((L.drop (si + n)).take (sn - n)).map
            (fun l : devcon_line => { l with age := age }) ++
          List.replicate n (devcon_line_set_width
            (devcon_line_reserve devcon_line_null W attr age 0 true).1 W) ++
          L.drop (si + sn),
        W, ph, si, sn, sf - min sf n⟩,
       some (((L.drop si).take n).foldl devcon_history_push h)) := by
    unfold devcon_page_scroll_up devcon_page_up
    simp only [hnum, hWW]
    rw [if_neg (by omega)]
  have hold_len : ((L.drop si).take n).length = n := by
    simp only [List.length_take, List.length_drop]
    omega
  have hA : (L.take si).length = si := by
    rw [List.length_take]
    omega
  have hM : (((L.drop (si + n)).take (sn - n)).map
      (fun l : devcon_line => { l with age := age })).length = sn - n := by
    simp only [List.length_map, List.length_take, List.length_drop]
    omega
  obtain ⟨rest2, h2l, h2wf, h2max⟩ :=
    history_push_fold ((L.drop si).take n) h h.lines [] hh (by simp)
      (by simp only [List.length_nil, Nat.zero_add, hold_len]; omega)
  rw [List.nil_append] at h2l
  have hsub : ∀ l ∈ (L.drop si).take n,
      l.width = W ∧ l.fill ≤ l.width ∧ l.width ≤ l.cells.length := by
    intro l hl
    apply hwf
    have ht : (L.drop si).take n = ((L.drop si).take sn).take n := by
      rw [List.take_take, hnum]
    rw [ht] at hl
    exact List.take_subset _ _ hl
  have hloop := down_loop_pops W attr age
    (List.replicate n (devcon_line_set_width
      (devcon_line_reserve devcon_line_null W attr age 0 true).1 W))
    ((L.drop si).take n) rest2 (((L.drop si).take n).foldl devcon_history_push h)
    (by simp only [List.length_replicate]; omega) h2l hsub
  have hb1 : ((L.take si ++
      ((L.drop (si + n)).take (sn - n)).map (fun l : devcon_line => { l with age := age }) ++
      List.replicate n (devcon_line_set_width
        (devcon_line_reserve devcon_line_null W attr age 0 true).1 W) ++
      L.drop (si + sn))).drop (si + sn - n) =
      List.replicate n (devcon_line_set_width
        (devcon_line_reserve devcon_line_null W attr age 0 true).1 W) ++
      L.drop (si + sn) := by
    rw [List.append_assoc]
    exact List.drop_left' (by
      simp only [List.length_append, hA, hM]
      omega)
  have hb2 : (List.replicate n (devcon_line_set_width
      (devcon_line_reserve devcon_line_null W attr age 0 true).1 W) ++
      L.drop (si + sn)).take n =
      List.replicate n (devcon_line_set_width
        (devcon_line_reserve devcon_line_null W attr age 0 true).1 W) :=
    List.take_left' (by simp)
  have hml : ((L.take si ++
      ((L.drop (si + n)).take (sn - n)).map (fun l : devcon_line => { l with age := age }) ++
      List.replicate n (devcon_line_set_width
        (devcon_line_reserve devcon_line_null W attr age 0 true).1 W) ++
      L.drop (si + sn)).drop si).take (sn - n) =
      ((L.drop (si + n)).take (sn - n)).map (fun l : devcon_line => { l with age := age }) := by
    rw [List.append_assoc, List.append_assoc, List.drop_left' hA,
      List.take_left' hM]
  have htk : (L.take si ++
      ((L.drop (si + n)).take (sn - n)).map (fun l : devcon_line => { l with age := age }) ++
      List.replicate n (devcon_line_set_width
        (devcon_line_reserve devcon_line_null W attr age 0 true).1 W) ++
      L.drop (si + sn)).take si = L.take si := by
    rw [List.append_assoc, List.append_assoc]
    exact List.take_left' hA
  have hdr : (L.take si ++
      ((L.drop (si + n)).take (sn - n)).map (fun l : devcon_line => { l with age := age }) ++
      List.replicate n (devcon_line_set_width
        (devcon_line_reserve devcon_line_null W attr age 0 true).1 W) ++
      L.drop (si + sn)).drop (si + sn) = L.drop (si + sn) :=
    List.drop_left' (by
      simp only [List.length_append, List.length_replicate, hA, hM]
      omega)
  have hMM : (((L.drop (si + n)).take (sn - n)).map
        (fun l : devcon_line => { l with age := age })).map
      (fun l : devcon_line => { l with age := age }) =
      ((L.drop (si + n)).take (sn - n)).map (fun l : devcon_line => { l with age := age }) := by
    rw [List.map_map]
    rfl
  rw [hup]
  have hdown : (devcon_page_scroll_down
      ⟨pa,
        L.take si ++
          ((L.drop (si + n)).take (sn - n)).map
            (fun l : devcon_line => { l with age := age }) ++
          List.replicate n (devcon_line_set_width
            (devcon_line_reserve devcon_line_null W attr age 0 true).1 W) ++
          L.drop (si + sn),
        W, ph, si, sn, sf - min sf n⟩ n attr age
      (some (((L.drop si).take n).foldl devcon_history_push h))).1.lines =
      L.take si ++ (L.drop si).take n ++
        ((L.drop (si + n)).take (sn - n)).map (fun l : devcon_line => { l with age := age }) ++
        L.drop (si + sn) := by
    unfold devcon_page_scroll_down devcon_page_down
    simp only [hnum, hWW]
    rw [if_neg (by omega)]
    simp only [hb1, hb2, List.reverse_replicate]
    rw [hloop]
    simp only [hml, hMM, htk, hdr]
  rw [hdown]
  have e2 : (L.drop si).take n ++ (L.drop si).drop n = L.drop si :=
    List.take_append_drop n (L.drop si)
  have e3 : (L.drop si).drop n = L.drop (si + n) := by
    rw [List.drop_drop]
  have e4 : (L.drop (si + n)).take (sn - n) ++ (L.drop (si + n)).drop (sn - n) =
      L.drop (si + n) := List.take_append_drop (sn - n) (L.drop (si + n))
  have e5 : (L.drop (si + n)).drop (sn - n) = L.drop (si + sn) := by
    rw [List.drop_drop]
    congr 1
    omega
  have hsplit : L = L.take si ++ ((L.drop si).take n ++
      ((L.drop (si + n)).take (sn - n) ++ L.drop (si + sn))) := by
    conv_lhs => rw [← List.take_append_drop si L, ← e2, e3, ← e4, e5]
  have hMv : (((L.drop (si + n)).take (sn - n)).map
      (fun l : devcon_line => { l with age := age })).map devcon_line_view =
      ((L.drop (si + n)).take (sn - n)).map devcon_line_view := by
    rw [List.map_map]
    rfl
  conv_rhs => rw [hsplit]
  simp only [List.map_append, List.append_assoc, hMv]

/-- Witness for C5 on the 2x2 page with lines AB, CD, an empty history
of capacity 8 and a scroll of one line. -/
theorem C5_scroll_symmetry_witness :
    1 ≤ c5_page.scroll_num ∧
    ((devcon_page_scroll_down
        (devcon_page_scroll_up c5_page 1 none 7 (some c5_history)).1 1 none 7
        (devcon_page_scroll_up c5_page 1 none 7 (some c5_history)).2).1).lines.map
      devcon_line_view = c5_page.lines.map devcon_line_view :=
  ⟨by decide, C5_scroll_symmetry c5_page c5_history 1 none 7 (by decide)
    (by decide) (by decide) (by decide) (by decide) (by decide)⟩

/-- Witness for C9 at g = U+1F600. -/
theorem C9_utf8_roundtrip_witness :
    0x1F600 < 2 ^ 21 ∧
    (devcon_utf8_decode_list devcon_utf8_null
        (devcon_utf8_encode 0x1F600)).2 =
      List.replicate ((devcon_utf8_encode 0x1F600).length - 1) [] ++
        [[0x1F600]] :=
  ⟨by decide, C9_utf8_roundtrip 0x1F600 (by decide)⟩

end Devcon
